import Mathlib

/-!
# TempOS x86 task layer (`kernel/arch/x86/kernel/task.c`)

A shallow embedding of `arch_init_scheduler`, `setup_task` and `switch_to`,
followed by the properties proved about them.

Conventions of the embedding.

* Pointers are natural numbers, `NULL` is `0`.  Task structures live in
  `State.heap` (one `task_t` per address), kernel-stack bytes live in
  `State.mem` (one byte per address); the two stores are separate, i.e. a
  kernel stack never overlaps a task structure.
* A pointer to the `arch_tss` member of a task is represented by the address
  of the task that holds it.
* 32-bit arithmetic is arithmetic on `Nat` reduced modulo `2 ^ 32`.
* Calls that leave the C file (`kmalloc`, `kfree`, `cli`, `sti`,
  `c_llist_add`, `initial_task`, `task_switch_to`) and reads of processor
  registers (`load_esp`, `load_eflags`) are recorded, in order, in
  `State.trace`.  A call that takes a task records the registry, the cursor,
  the globals and that task's structure as they are when the call is made, so
  that the order of a call and of the writes around it can be told.
-/

namespace Tempos

/-! ## Machine words -/

/-- Number of values of a 32-bit word. -/
def W32 : Nat := 4294967296

/-- The cast `(uint32_t)x`. -/
def u32 (x : Nat) : Nat := x % W32

/-- 32-bit subtraction `a - b`. -/
def sub32 (a b : Nat) : Nat := (a % W32 + (W32 - b % W32)) % W32

/-- 32-bit addition `a + b`. -/
def add32 (a b : Nat) : Nat := (a + b) % W32

/-- The null pointer. -/
def NULL : Nat := 0

/-! ## Constants and types declared in headers outside `task.c` -/

/-- Constants and sizes that `task.c` takes from `tempos/sched.h`,
`tempos/kernel.h` and `x86/x86.h`.  None of these headers is part of the
sources at hand, so their values are parameters of the development. -/
structure Platform where
  /-- Task state `TASK_RUNNING`. -/
  TASK_RUNNING : Int
  /-- Task state `TASK_READY_TO_RUN`. -/
  TASK_READY_TO_RUN : Int
  /-- Scheduling priority given to the first task. -/
  DEFAULT_PRIORITY : Int
  /-- Process id reserved for the kernel task. -/
  KERNEL_PID : Int
  /-- Kernel data-segment selector. -/
  KERNEL_DS : Nat
  /-- Kernel code-segment selector. -/
  KERNEL_CS : Nat
  /-- Interrupt-enable bit of the flags register. -/
  EFLAGS_IF : Nat
  /-- Size in bytes of a kernel stack. -/
  PROCESS_STACK_SIZE : Nat
  /-- Allocation flag: normal zone, zeroed memory. -/
  GFP_NORMAL_Z : Nat
  /-- Allocation flag: user-accessible page. -/
  PAGE_USER : Nat
  /-- The value of `sizeof(task_t)`. -/
  sizeof_task_t : Nat
  /-- The value of `sizeof(task->arch_tss.regs.ds)`: the width in bytes of a
  segment-selector member of the saved registers. -/
  sizeof_ds : Nat

/-- The constants fit the C types that hold them: selectors fit a selector
member, the flag bit fits 32 bits, and a selector member is 1 to 4 bytes
wide. -/
def Platform.wf (P : Platform) : Prop :=
  1 ≤ P.sizeof_ds ∧ P.sizeof_ds ≤ 4 ∧
  P.KERNEL_DS < 256 ^ P.sizeof_ds ∧ P.KERNEL_CS < 256 ^ P.sizeof_ds ∧
  P.EFLAGS_IF < W32

instance (P : Platform) : Decidable P.wf := by
  unfold Platform.wf; infer_instance

/-- Conversion of a value to the type of a segment-selector member. -/
def seg (P : Platform) (x : Nat) : Nat := x % 256 ^ P.sizeof_ds

/-- Saved registers (`task->arch_tss.regs`). -/
structure pt_regs where
  eax : Nat
  ecx : Nat
  edx : Nat
  ebx : Nat
  esp : Nat
  ebp : Nat
  esi : Nat
  edi : Nat
  eip : Nat
  eflags : Nat
  cs : Nat
  ds : Nat
  es : Nat
  fs : Nat
  gs : Nat
  ss : Nat
deriving DecidableEq, Repr

/-- Saved architecture context (`arch_tss_t`). -/
structure arch_tss_t where
  regs : pt_regs
  cr3 : Nat
deriving DecidableEq, Repr

/-- Task control block (`task_t`), restricted to the members `task.c` uses. -/
structure task_t where
  arch_tss : arch_tss_t
  state : Int
  priority : Int
  pid : Int
  kstack : Nat
  return_code : Int
  wait_queue : Int
deriving DecidableEq, Repr

/-- The 32-bit members of a task hold 32-bit values. -/
def task_t.wf (t : task_t) : Prop :=
  t.arch_tss.regs.eax < W32 ∧ t.arch_tss.regs.ecx < W32 ∧
  t.arch_tss.regs.edx < W32 ∧ t.arch_tss.regs.ebx < W32 ∧
  t.arch_tss.regs.ebp < W32 ∧ t.arch_tss.regs.esi < W32 ∧
  t.arch_tss.regs.edi < W32

instance (t : task_t) : Decidable t.wf := by
  unfold task_t.wf; infer_instance

/-- A task structure as `kmalloc` hands it out under `GFP_NORMAL_Z`: every
member is zero. -/
def zero_task : task_t :=
  { arch_tss :=
      { regs :=
          { eax := 0, ecx := 0, edx := 0, ebx := 0, esp := 0, ebp := 0,
            esi := 0, edi := 0, eip := 0, eflags := 0, cs := 0, ds := 0,
            es := 0, fs := 0, gs := 0, ss := 0 },
        cr3 := 0 },
    state := 0, priority := 0, pid := 0, kstack := 0, return_code := 0,
    wait_queue := 0 }

/-! ## Global state -/

/-- What a routine outside `task.c` finds when it is called: the registry,
the cursor, the globals and the task structure the call is about, as they
are at the moment of the call. -/
structure Snapshot where
  /-- The registry. -/
  tasks : List Nat
  /-- The cursor `cur_task`. -/
  cur_task : Option Nat
  /-- The global `arch_tss_cur_task`. -/
  arch_tss_cur_task : Nat
  /-- The member `task_tss.esp0`. -/
  esp0 : Nat
  /-- Whether maskable interrupts are enabled. -/
  interrupts : Bool
  /-- The task structure the argument of the call points to. -/
  task : task_t
deriving DecidableEq, Repr

/-- A step that leaves the C code of `task.c`: a call of an outside routine,
or a read of a processor register through inline assembly.  The calls that
take a task record what they find at the moment they are made. -/
inductive Event where
  | kmalloc (size flags result : Nat)
  | kfree (ptr : Nat)
  | cli
  | sti
  | load_eflags (value : Nat)
  | load_esp (value : Nat)
  | c_llist_add (element : Nat) (seen : Snapshot)
  | initial_task (task : Nat) (seen : Snapshot)
  | task_switch_to (task : Nat) (seen : Snapshot)
deriving DecidableEq, Repr

/-- Byte-addressed memory. -/
abbrev Mem := Nat → Nat

/-- Everything the three functions read or write. -/
structure State where
  /-- Task structures, by address. -/
  heap : Nat → task_t
  /-- Bytes of memory, by address (kernel stacks). -/
  mem : Mem
  /-- The registry `tasks`: the `element` pointer of each node, in list
  order.  A node is named by its position. -/
  tasks : List Nat
  /-- The cursor `cur_task`: a node of the registry, or `none` for `NULL`. -/
  cur_task : Option Nat
  /-- The global `arch_tss_cur_task`. -/
  arch_tss_cur_task : Nat
  /-- The global `current_esp`. -/
  current_esp : Nat
  /-- The member `task_tss.esp0`. -/
  esp0 : Nat
  /-- The member `kerneldir->dir_phy_addr`. -/
  dir_phy_addr : Nat
  /-- The stack-pointer register of the processor. -/
  esp : Nat
  /-- The flags register of the processor. -/
  eflags : Nat
  /-- Whether maskable interrupts are enabled. -/
  interrupts : Bool
  /-- The addresses the allocator will return on its next calls (`0` for a
  failed allocation; an exhausted list means failure). -/
  kmalloc_results : List Nat
  /-- Addresses currently allocated. -/
  live : List Nat
  /-- The calls and register reads made so far, oldest first. -/
  trace : List Event

/-- What a call about the task at address `p` finds in state `s`. -/
def State.snapshot (s : State) (p : Nat) : Snapshot :=
  { tasks := s.tasks, cur_task := s.cur_task, arch_tss_cur_task := s.arch_tss_cur_task,
    esp0 := s.esp0, interrupts := s.interrupts, task := s.heap p }

/-! ## Collaborators outside `task.c` -/

/-- Modelled from the spec: `kmalloc` (allocator collaborator,
`allocate(size, flags) -> buffer | null`) is not part of the sources at hand.
It returns the next address the allocator has in store, which becomes live
unless it is `NULL`. -/
def kmalloc (s : State) (size flags : Nat) : Nat × State :=
  match s.kmalloc_results with
  | [] => (NULL, { s with trace := s.trace ++ [Event.kmalloc size flags NULL] })
  | p :: rest =>
    (p, { s with
            kmalloc_results := rest,
            live := if p = NULL then s.live else p :: s.live,
            trace := s.trace ++ [Event.kmalloc size flags p] })

/-- Modelled from the spec: `kfree` (allocator collaborator, `free(buffer)`)
is not part of the sources at hand.  It ends the life of one allocation. -/
def kfree (s : State) (ptr : Nat) : State :=
  { s with live := s.live.erase ptr, trace := s.trace ++ [Event.kfree ptr] }

/-- Modelled from the spec: `cli` (`x86/io.h`) disables interrupts. -/
def cli (s : State) : State :=
  { s with interrupts := false, trace := s.trace ++ [Event.cli] }

/-- Modelled from the spec: `sti` (`x86/io.h`) enables interrupts. -/
def sti (s : State) : State :=
  { s with interrupts := true, trace := s.trace ++ [Event.sti] }

/-- Modelled from the spec: `c_llist_add` (registry collaborator,
`register(task)`) is not part of the sources at hand.  It appends a node
holding `element` to the registry.  The call is recorded with what it finds
before the node is appended. -/
def c_llist_add (s : State) (element : Nat) : State :=
  { s with tasks := s.tasks ++ [element],
           trace := s.trace ++ [Event.c_llist_add element (s.snapshot element)] }

/-- The value of the pointer `tasks`: the first node of the registry, `NULL`
when the registry is empty. -/
def tasks_head (s : State) : Option Nat :=
  match s.tasks with
  | [] => none
  | _ :: _ => some 0

/-- Modelled from the spec: the macro `GET_TASK` (`tempos/sched.h`) is not
part of the sources at hand.  It resolves a node to the task it holds; `NULL`,
or a handle that names no node, resolves to no task (`NULL`). -/
def GET_TASK (s : State) (a : Option Nat) : Nat :=
  match a with
  | none => NULL
  | some i => s.tasks.getD i NULL

/-- Modelled from the spec: `initial_task` (entry hook, `arch/x86/task.S`) is
not part of the sources at hand.  It is the one-time transfer of control into
the first task and does not come back to its caller: the state it yields is
the state at the moment of the call, with the call and what it finds
recorded. -/
def initial_task (s : State) (task : Nat) : State :=
  { s with trace := s.trace ++ [Event.initial_task task (s.snapshot task)] }

/-- Modelled from the spec: `task_switch_to` (platform restore primitive,
`arch/x86/task.S`) is not part of the sources at hand.  It hands the
processor to the given context and does not come back to its caller: the
state it yields is the state at the moment of the call, with the call, the
context it is given and what it finds recorded.  The registers of `State`
are those of the caller up to that moment; the values the resumed task runs
with are those of the recorded context. -/
def task_switch_to (s : State) (task : Nat) : State :=
  { s with trace := s.trace ++ [Event.task_switch_to task (s.snapshot task)] }

/-- The macro `load_esp(x)` of `task.c`: read the stack-pointer register of
the processor.  The read is recorded with the value read. -/
def load_esp (s : State) : Nat × State :=
  (s.esp, { s with trace := s.trace ++ [Event.load_esp s.esp] })

/-- The macro `load_eflags(x)` of `task.c`: read the flags register of the
processor.  The read is recorded with the value read. -/
def load_eflags (s : State) : Nat × State :=
  (s.eflags, { s with trace := s.trace ++ [Event.load_eflags s.eflags] })

/-! ## Memory access -/

/-- The call `memcpy(dst, &value, n)`: the `n` low bytes of `value`,
least-significant first, are written at `dst`, `dst + 1`, ... -/
def memcpy (m : Mem) (dst value : Nat) : Nat → Mem
  | 0 => m
  | n + 1 => fun a =>
      if a = (dst + n) % W32 then value / 256 ^ n % 256
      else memcpy m dst value n a

/-- The `n`-byte little-endian value stored at `src`. -/
def load (m : Mem) (src : Nat) : Nat → Nat
  | 0 => 0
  | n + 1 => load m src n + 256 ^ n * m ((src + n) % W32)

/-- Modelled from the spec: the macro `push_into_stack(stackp, value)`
(`tempos/sched.h`) is not part of the sources at hand.  It lowers `stackp` by
`sizeof(value)` and copies `value` there. -/
def push_into_stack (stackp : Nat) (m : Mem) (value size : Nat) : Nat × Mem :=
  (sub32 stackp size, memcpy m (sub32 stackp size) value size)

/-- Replace the task structure at address `p`. -/
def State.set_task (s : State) (p : Nat) (t : task_t) : State :=
  { s with heap := fun q => if q = p then t else s.heap q }

/-- Rewrite the task structure at address `p` by `f`. -/
def State.upd (s : State) (p : Nat) (f : task_t → task_t) : State :=
  s.set_task p (f (s.heap p))

/-! ## The functions of `task.c` -/

/-- The function `arch_init_scheduler(start_routine)`: configure and start the
first kernel thread. -/
def arch_init_scheduler (P : Platform) (s : State) (start_routine : Nat) : State :=
  -- newth = kmalloc(sizeof(task_t), GFP_NORMAL_Z)
  let r1 := kmalloc s P.sizeof_task_t P.GFP_NORMAL_Z
  let newth := r1.1
  if newth = NULL then r1.2
  else
    -- the structure comes zeroed
    let s1 := r1.2.set_task newth zero_task
    -- kstack = kmalloc(PROCESS_STACK_SIZE, GFP_NORMAL_Z | PAGE_USER)
    let r2 := kmalloc s1 P.PROCESS_STACK_SIZE (P.GFP_NORMAL_Z ||| P.PAGE_USER)
    let kstack := r2.1
    if kstack = NULL then kfree r2.2 newth
    else
      -- task_tss.esp0 = (uint32_t)kstack + PROCESS_STACK_SIZE
      let s2 := { r2.2 with esp0 := add32 (u32 kstack) P.PROCESS_STACK_SIZE }
      -- load_eflags(eflags)
      let r3 := load_eflags s2
      let eflags := r3.1
      let s3 := r3.2.upd newth fun t =>
        { t with
          state := P.TASK_RUNNING,
          priority := P.DEFAULT_PRIORITY,
          pid := P.KERNEL_PID,
          return_code := 0,
          wait_queue := 0,
          arch_tss :=
            { regs :=
                { t.arch_tss.regs with
                  eip := u32 start_routine,
                  ds := seg P P.KERNEL_DS,
                  fs := seg P P.KERNEL_DS,
                  gs := seg P P.KERNEL_DS,
                  ss := seg P P.KERNEL_DS,
                  es := seg P P.KERNEL_DS,
                  cs := seg P P.KERNEL_CS,
                  eflags := u32 (eflags ||| P.EFLAGS_IF) },
              cr3 := u32 s2.dir_phy_addr } }
      let s4 := cli s3
      let s5 := c_llist_add s4 newth
      -- cur_task = tasks
      let s6 := { s5 with cur_task := tasks_head s5 }
      -- arch_tss_cur_task = &newth->arch_tss
      let s7 := { s6 with arch_tss_cur_task := newth }
      let s8 := sti s7
      -- load_esp(newth->arch_tss.regs.esp)
      let r9 := load_esp s8
      let s9 := r9.2.upd newth fun t =>
        { t with arch_tss := { t.arch_tss with regs := { t.arch_tss.regs with esp := r9.1 } } }
      -- newth->kstack = (char*)(newth->arch_tss.regs.esp)
      let s10 := s9.upd newth fun t => { t with kstack := t.arch_tss.regs.esp }
      initial_task s10 newth

/-- The register values `setup_task` stores in a task before it builds the
frame (everything but the new stack pointer). -/
def setup_regs (P : Platform) (s : State) (t : task_t) (start_routine : Nat) : arch_tss_t :=
  { regs :=
      { t.arch_tss.regs with
        eip := u32 start_routine,
        ds := seg P P.KERNEL_DS,
        fs := seg P P.KERNEL_DS,
        gs := seg P P.KERNEL_DS,
        ss := seg P P.KERNEL_DS,
        es := seg P P.KERNEL_DS,
        cs := seg P P.KERNEL_CS,
        eflags := u32 P.EFLAGS_IF },
    cr3 := u32 s.dir_phy_addr }

/-- The function `setup_task(task, start_routine)`: configure and prepare the
stack to initialize the thread. -/
def setup_task (P : Platform) (s : State) (task start_routine : Nat) : State :=
  if task = NULL then s
  else
    let t := s.heap task
    let c := setup_regs P s t start_routine
    -- regs.esp = (uint32_t)task->kstack - 14 * sizeof(regs.eax) - sizeof(regs.ds)
    let esp := sub32 (sub32 (u32 t.kstack) (14 * 4)) P.sizeof_ds
    let r : pt_regs := { c.regs with esp := esp }
    let cs := r.cs
    let ss := r.ss
    let k0 := push_into_stack t.kstack s.mem ss 4
    let k1 := push_into_stack k0.1 k0.2 r.esp 4
    let k2 := push_into_stack k1.1 k1.2 r.eflags 4
    let k3 := push_into_stack k2.1 k2.2 cs 4
    let k4 := push_into_stack k3.1 k3.2 r.eip 4
    let k5 := push_into_stack k4.1 k4.2 r.eax 4
    let k6 := push_into_stack k5.1 k5.2 r.ecx 4
    let k7 := push_into_stack k6.1 k6.2 r.edx 4
    let k8 := push_into_stack k7.1 k7.2 r.ebx 4
    let k9 := push_into_stack k8.1 k8.2 r.esp 4
    let k10 := push_into_stack k9.1 k9.2 r.ebp 4
    let k11 := push_into_stack k10.1 k10.2 r.esi 4
    let k12 := push_into_stack k11.1 k11.2 r.edi 4
    let k13 := push_into_stack k12.1 k12.2 r.ds P.sizeof_ds
    let k14 := push_into_stack k13.1 k13.2 c.cr3 4
    { s.set_task task { t with arch_tss := { regs := r, cr3 := c.cr3 }, kstack := k14.1 } with
      mem := k14.2 }

/-- The function `switch_to(tsk)`: switch task. -/
def switch_to (P : Platform) (s : State) (tsk : Option Nat) : State :=
  let task := GET_TASK s tsk
  let current_task := GET_TASK s s.cur_task
  if current_task = NULL ∨ task = NULL then s
  else
    let s1 :=
      if (s.heap current_task).state = P.TASK_RUNNING then
        s.upd current_task fun t => { t with state := P.TASK_READY_TO_RUN }
      else s
    -- arch_tss_cur_task = &current_task->arch_tss
    let s2 := { s1 with arch_tss_cur_task := current_task }
    -- current_esp = current_task->arch_tss.regs.esp
    let s3 := { s2 with current_esp := (s2.heap current_task).arch_tss.regs.esp }
    -- cur_task = tsk
    let s4 := { s3 with cur_task := tsk }
    -- task->state = TASK_RUNNING
    let s5 := s4.upd task fun t => { t with state := P.TASK_RUNNING }
    task_switch_to s5 task

/-! ## Sample inputs -/

/-- A platform with the usual values of a 32-bit x86 build. -/
def P0 : Platform :=
  { TASK_RUNNING := 0, TASK_READY_TO_RUN := 1, DEFAULT_PRIORITY := 0,
    KERNEL_PID := 0, KERNEL_DS := 16, KERNEL_CS := 8, EFLAGS_IF := 512,
    PROCESS_STACK_SIZE := 8192, GFP_NORMAL_Z := 1, PAGE_USER := 4,
    sizeof_task_t := 96, sizeof_ds := 2 }

/-- A task with the given state, priority and saved stack pointer. -/
def sample_task (state priority : Int) (esp : Nat) : task_t :=
  { zero_task with
    state := state, priority := priority, kstack := 65536,
    arch_tss :=
      { regs := { zero_task.arch_tss.regs with esp := esp, eax := 7, eip := 1048576 },
        cr3 := 12288 } }

/-- A state with two registered tasks, `A` at address 4096 (priority 0, at
the cursor) and `B` at address 8192 (priority 5), in the given states. -/
def sample_state (stA stB : Int) : State :=
  { heap := fun q =>
      if q = 4096 then sample_task stA 0 256
      else if q = 8192 then sample_task stB 5 512
      else zero_task,
    mem := fun _ => 0,
    tasks := [4096, 8192],
    cur_task := some 0,
    arch_tss_cur_task := 4096,
    current_esp := 0,
    esp0 := 0,
    dir_phy_addr := 12288,
    esp := 36864,
    eflags := 2,
    interrupts := true,
    kmalloc_results := [],
    live := [4096, 8192],
    trace := [] }

/-- The sample state with a cursor that names no node. -/
def no_current_state : State :=
  { sample_state 1 1 with cur_task := none }

/-! ## Frames -/

/-- Total size of a list of (value, size) fields. -/
def frame_size : List (Nat × Nat) → Nat
  | [] => 0
  | f :: fs => f.2 + frame_size fs

/-- Push a list of (value, size) fields, first field first. -/
def push_all : List (Nat × Nat) → Nat → Mem → Nat × Mem
  | [], sp, m => (sp, m)
  | f :: fs, sp, m =>
      push_all fs (push_into_stack sp m f.1 f.2).1 (push_into_stack sp m f.1 f.2).2

/-- Memory `m` holds the fields, one below the other without gaps, the first
one ending just below `sp`. -/
def frame_holds (m : Mem) : List (Nat × Nat) → Nat → Prop
  | [], _ => True
  | f :: fs, sp => load m (sub32 sp f.2) f.2 = f.1 % 256 ^ f.2 ∧ frame_holds m fs (sub32 sp f.2)

/-- The fifteen fields `setup_task` pushes for saved registers `r` and
page-table base `cr3`, in the order of the pushes. -/
def frame_fields (P : Platform) (r : pt_regs) (cr3 : Nat) : List (Nat × Nat) :=
  [(r.ss, 4), (r.esp, 4), (r.eflags, 4), (r.cs, 4), (r.eip, 4), (r.eax, 4), (r.ecx, 4),
   (r.edx, 4), (r.ebx, 4), (r.esp, 4), (r.ebp, 4), (r.esi, 4), (r.edi, 4),
   (r.ds, P.sizeof_ds), (cr3, 4)]

/-- The values of a frame, named as in `setup_task`. -/
structure trap_frame where
  cr3 : Nat
  ds : Nat
  edi : Nat
  esi : Nat
  ebp : Nat
  esp_pusha : Nat
  ebx : Nat
  edx : Nat
  ecx : Nat
  eax : Nat
  eip : Nat
  cs : Nat
  eflags : Nat
  esp : Nat
  ss : Nat
deriving DecidableEq, Repr

/-- Modelled from the spec: the restore code (`arch/x86/task.S`) is not part
of the sources at hand; it pops in the mirror order of the pushes.  Read a
frame back in that order: from `sp` upwards, `cr3` first and `ss` last. -/
def read_frame (P : Platform) (m : Mem) (sp : Nat) : trap_frame :=
  let a1 := add32 sp 4
  let a2 := add32 a1 P.sizeof_ds
  let a3 := add32 a2 4
  let a4 := add32 a3 4
  let a5 := add32 a4 4
  let a6 := add32 a5 4
  let a7 := add32 a6 4
  let a8 := add32 a7 4
  let a9 := add32 a8 4
  let a10 := add32 a9 4
  let a11 := add32 a10 4
  let a12 := add32 a11 4
  let a13 := add32 a12 4
  let a14 := add32 a13 4
  { cr3 := load m sp 4,
    ds := load m a1 P.sizeof_ds,
    edi := load m a2 4,
    esi := load m a3 4,
    ebp := load m a4 4,
    esp_pusha := load m a5 4,
    ebx := load m a6 4,
    edx := load m a7 4,
    ecx := load m a8 4,
    eax := load m a9 4,
    eip := load m a10 4,
    cs := load m a11 4,
    eflags := load m a12 4,
    esp := load m a13 4,
    ss := load m a14 4 }

/-- The frame a saved context stands for. -/
def context_frame (c : arch_tss_t) : trap_frame :=
  { cr3 := c.cr3, ds := c.regs.ds, edi := c.regs.edi, esi := c.regs.esi,
    ebp := c.regs.ebp, esp_pusha := c.regs.esp, ebx := c.regs.ebx, edx := c.regs.edx,
    ecx := c.regs.ecx, eax := c.regs.eax, eip := c.regs.eip, cs := c.regs.cs,
    eflags := c.regs.eflags, esp := c.regs.esp, ss := c.regs.ss }

/-- The context a task holds after `setup_task`. -/
def setup_context (P : Platform) (s : State) (t : task_t) (start_routine : Nat) : arch_tss_t :=
  { regs :=
      { (setup_regs P s t start_routine).regs with
        esp := sub32 (sub32 (u32 t.kstack) (14 * 4)) P.sizeof_ds },
    cr3 := (setup_regs P s t start_routine).cr3 }

/-- A state with an empty registry in which the allocator will return the
given addresses. -/
def boot_state (results : List Nat) : State :=
  { heap := fun _ => sample_task 1 3 256,
    mem := fun _ => 0,
    tasks := [],
    cur_task := none,
    arch_tss_cur_task := 0,
    current_esp := 0,
    esp0 := 4660,
    dir_phy_addr := 12288,
    esp := 36864,
    eflags := 2,
    interrupts := true,
    kmalloc_results := results,
    live := [],
    trace := [] }

/-! ## The scheduler invariant and the reachable states -/

/-- The scheduler invariant: at most one task of the registry is `RUNNING`,
and a `RUNNING` task of the registry is the one the cursor resolves to. -/
def sched_inv (P : Platform) (s : State) : Prop :=
  (∀ p q, p ∈ s.tasks → q ∈ s.tasks → p ≠ NULL → q ≠ NULL →
    (s.heap p).state = P.TASK_RUNNING → (s.heap q).state = P.TASK_RUNNING → p = q) ∧
  (∀ p, p ∈ s.tasks → p ≠ NULL → (s.heap p).state = P.TASK_RUNNING →
    GET_TASK s s.cur_task = p)

/-- The states reached from a successful bootstrap on an empty registry by
calls of `switch_to` and `setup_task`. -/
inductive Reachable (P : Platform) : State → Prop where
  | boot (s : State) (start_routine p k : Nat) (rest : List Nat) :
      s.tasks = [] → s.kmalloc_results = p :: k :: rest → p ≠ NULL → k ≠ NULL →
      Reachable P (arch_init_scheduler P s start_routine)
  | switch (s : State) (tsk : Option Nat) :
      Reachable P s → Reachable P (switch_to P s tsk)
  | setup (s : State) (task start_routine : Nat) :
      Reachable P s → Reachable P (setup_task P s task start_routine)

/-! ## Properties of `switch_to` -/

theorem switch_to_tasks (P : Platform) (s : State) (tsk : Option Nat) :
    (switch_to P s tsk).tasks = s.tasks := by
  simp only [switch_to, task_switch_to, State.upd, State.set_task]
  split_ifs <;> rfl

theorem switch_to_cur_task (P : Platform) (s : State) (tsk : Option Nat)
    (hA : GET_TASK s s.cur_task ≠ NULL) (hB : GET_TASK s tsk ≠ NULL) :
    (switch_to P s tsk).cur_task = tsk := by
  simp [switch_to, hA, hB, task_switch_to, State.upd, State.set_task]

theorem switch_to_heap_target (P : Platform) (s : State) (tsk : Option Nat)
    (hA : GET_TASK s s.cur_task ≠ NULL) (hB : GET_TASK s tsk ≠ NULL) :
    (switch_to P s tsk).heap (GET_TASK s tsk) =
      { s.heap (GET_TASK s tsk) with state := P.TASK_RUNNING } := by
  simp only [switch_to, hA, hB, task_switch_to, State.upd, State.set_task, or_self, if_false,
    if_true]
  by_cases hrun : (s.heap (GET_TASK s s.cur_task)).state = P.TASK_RUNNING
  · simp only [hrun, if_true]
    by_cases h : GET_TASK s tsk = GET_TASK s s.cur_task
    · simp [h]
    · simp [h]
  · simp only [hrun, if_false]

theorem switch_to_heap_other (P : Platform) (s : State) (tsk : Option Nat) (q : Nat)
    (hA : GET_TASK s s.cur_task ≠ NULL) (hB : GET_TASK s tsk ≠ NULL)
    (hq : q ≠ GET_TASK s tsk) :
    (switch_to P s tsk).heap q =
      if q = GET_TASK s s.cur_task ∧ (s.heap q).state = P.TASK_RUNNING then
        { s.heap q with state := P.TASK_READY_TO_RUN }
      else s.heap q := by
  simp only [switch_to, hA, hB, task_switch_to, State.upd, State.set_task, or_self, if_false, hq]
  by_cases hrun : (s.heap (GET_TASK s s.cur_task)).state = P.TASK_RUNNING
  · simp only [hrun, if_true]
    by_cases h : q = GET_TASK s s.cur_task
    · subst h; simp [hrun]
    · simp [h]
  · simp only [hrun, if_false]
    by_cases h : q = GET_TASK s s.cur_task
    · subst h; simp [hrun]
    · simp [h]

theorem switch_to_noop (P : Platform) (s : State) (tsk : Option Nat)
    (h : GET_TASK s s.cur_task = NULL ∨ GET_TASK s tsk = NULL) :
    switch_to P s tsk = s := by
  simp only [switch_to, h, if_true]

theorem GET_TASK_switch_to (P : Platform) (s : State) (tsk a : Option Nat) :
    GET_TASK (switch_to P s tsk) a = GET_TASK s a := by
  simp only [GET_TASK, switch_to_tasks]

/-- Every field of a task other than `state` survives `switch_to`. -/
theorem switch_to_heap_fields (P : Platform) (s : State) (tsk : Option Nat) (q : Nat) :
    ((switch_to P s tsk).heap q).arch_tss = (s.heap q).arch_tss ∧
    ((switch_to P s tsk).heap q).priority = (s.heap q).priority ∧
    ((switch_to P s tsk).heap q).pid = (s.heap q).pid ∧
    ((switch_to P s tsk).heap q).kstack = (s.heap q).kstack ∧
    ((switch_to P s tsk).heap q).return_code = (s.heap q).return_code ∧
    ((switch_to P s tsk).heap q).wait_queue = (s.heap q).wait_queue := by
  by_cases h : GET_TASK s s.cur_task = NULL ∨ GET_TASK s tsk = NULL
  · rw [switch_to_noop P s tsk h]; simp
  · have hA : GET_TASK s s.cur_task ≠ NULL := fun e => h (Or.inl e)
    have hB : GET_TASK s tsk ≠ NULL := fun e => h (Or.inr e)
    by_cases hq : q = GET_TASK s tsk
    · subst hq
      rw [switch_to_heap_target P s tsk hA hB]; simp
    · rw [switch_to_heap_other P s tsk q hA hB hq]
      split_ifs <;> simp

/-- C1: when task `A` is at the cursor and `RUNNING`, and `switch_to` is
called with a node holding another task `B`, then afterwards `A` is
`READY_TO_RUN`, `B` is `RUNNING` and the cursor resolves to `B`. -/
theorem switch_to_running_current (P : Platform) (s : State) (tsk : Option Nat) (A B : Nat)
    (hA : GET_TASK s s.cur_task = A) (hB : GET_TASK s tsk = B)
    (hA0 : A ≠ NULL) (hB0 : B ≠ NULL) (hAB : A ≠ B)
    (hrun : (s.heap A).state = P.TASK_RUNNING) :
    ((switch_to P s tsk).heap A).state = P.TASK_READY_TO_RUN ∧
    ((switch_to P s tsk).heap B).state = P.TASK_RUNNING ∧
    GET_TASK (switch_to P s tsk) (switch_to P s tsk).cur_task = B := by
  subst hA hB
  refine ⟨?_, ?_, ?_⟩
  · rw [switch_to_heap_other P s tsk _ hA0 hB0 hAB]
    simp [hrun]
  · rw [switch_to_heap_target P s tsk hA0 hB0]
  · rw [switch_to_cur_task P s tsk hA0 hB0, GET_TASK_switch_to]

/-- Witness of C1 on the sample state with `A` running and `B` ready. -/
theorem switch_to_running_current_witness :
    GET_TASK (sample_state 0 1) (sample_state 0 1).cur_task = 4096 ∧
    GET_TASK (sample_state 0 1) (some 1) = 8192 ∧
    ((sample_state 0 1).heap 4096).state = P0.TASK_RUNNING ∧
    ((switch_to P0 (sample_state 0 1) (some 1)).heap 4096).state = P0.TASK_READY_TO_RUN ∧
    ((switch_to P0 (sample_state 0 1) (some 1)).heap 8192).state = P0.TASK_RUNNING ∧
    GET_TASK (switch_to P0 (sample_state 0 1) (some 1))
      (switch_to P0 (sample_state 0 1) (some 1)).cur_task = 8192 :=
  ⟨rfl, rfl, rfl,
    switch_to_running_current P0 (sample_state 0 1) (some 1) 4096 8192 rfl rfl
      (by decide) (by decide) (by decide) rfl⟩

/-- C2: when the cursor or the argument resolves to no task, `switch_to`
returns the state it was given: registry, cursor, task structures,
`arch_tss_cur_task`, `current_esp` and the record of outside calls (so
`task_switch_to` is not called) are all as before. -/
theorem switch_to_unresolved (P : Platform) (s : State) (tsk : Option Nat)
    (h : GET_TASK s s.cur_task = NULL ∨ GET_TASK s tsk = NULL) :
    switch_to P s tsk = s ∧
    (switch_to P s tsk).tasks = s.tasks ∧
    (switch_to P s tsk).cur_task = s.cur_task ∧
    (switch_to P s tsk).heap = s.heap ∧
    (switch_to P s tsk).arch_tss_cur_task = s.arch_tss_cur_task ∧
    (switch_to P s tsk).current_esp = s.current_esp ∧
    (switch_to P s tsk).trace = s.trace := by
  rw [switch_to_noop P s tsk h]
  exact ⟨rfl, rfl, rfl, rfl, rfl, rfl, rfl⟩

/-- Witness of C2: no task at the cursor, a registered task as argument. -/
theorem switch_to_unresolved_witness :
    (GET_TASK no_current_state no_current_state.cur_task = NULL ∨
      GET_TASK no_current_state (some 1) = NULL) ∧
    switch_to P0 no_current_state (some 1) = no_current_state :=
  ⟨Or.inl rfl, (switch_to_unresolved P0 no_current_state (some 1) (Or.inl rfl)).1⟩

/-- C3, as stated, fails: on the sample state the processor's stack pointer
is 36864 while the outgoing task's saved stack pointer is 256 before the call
and still 256 after it. -/
theorem switch_to_live_esp_counterexample :
    GET_TASK (sample_state 0 1) (sample_state 0 1).cur_task = 4096 ∧
    GET_TASK (sample_state 0 1) (some 1) = 8192 ∧
    (sample_state 0 1).esp = 36864 ∧
    ((switch_to P0 (sample_state 0 1) (some 1)).heap 4096).arch_tss.regs.esp = 256 ∧
    ((switch_to P0 (sample_state 0 1) (some 1)).heap 4096).arch_tss.regs.esp ≠
      (sample_state 0 1).esp := by
  refine ⟨rfl, rfl, rfl, ?_, ?_⟩
  · rw [(switch_to_heap_fields P0 (sample_state 0 1) (some 1) 4096).1]; rfl
  · rw [(switch_to_heap_fields P0 (sample_state 0 1) (some 1) 4096).1]; decide

/-- C3, amended: when both the current task and the target resolve, the
outgoing task's saved stack pointer after the call is the one it held before
the call, the global `current_esp` holds that same saved value, and the
processor's stack pointer is not changed. -/
theorem switch_to_saved_esp (P : Platform) (s : State) (tsk : Option Nat)
    (hA : GET_TASK s s.cur_task ≠ NULL) (hB : GET_TASK s tsk ≠ NULL) :
    ((switch_to P s tsk).heap (GET_TASK s s.cur_task)).arch_tss.regs.esp =
      (s.heap (GET_TASK s s.cur_task)).arch_tss.regs.esp ∧
    (switch_to P s tsk).current_esp = (s.heap (GET_TASK s s.cur_task)).arch_tss.regs.esp ∧
    (switch_to P s tsk).esp = s.esp := by
  refine ⟨?_, ?_, ?_⟩
  · rw [(switch_to_heap_fields P s tsk _).1]
  · simp only [switch_to, hA, hB, task_switch_to, State.upd, State.set_task, or_self, if_false]
    split_ifs <;> simp
  · simp only [switch_to, hA, hB, task_switch_to, State.upd, State.set_task, or_self, if_false]
    split_ifs <;> rfl

/-- Witness of the amended C3 on the sample state. -/
theorem switch_to_saved_esp_witness :
    GET_TASK (sample_state 0 1) (sample_state 0 1).cur_task ≠ NULL ∧
    GET_TASK (sample_state 0 1) (some 1) ≠ NULL ∧
    (switch_to P0 (sample_state 0 1) (some 1)).current_esp = 256 :=
  ⟨by decide, by decide,
    (switch_to_saved_esp P0 (sample_state 0 1) (some 1) (by decide) (by decide)).2.1⟩

/-- C4: across `switch_to(A)`, `switch_to(B)`, `switch_to(A)` the saved
architecture context of every task (instruction pointer, stack pointer,
general-purpose registers, selectors, flags and page-table base), and so
that of `A`, stays what it was when `A` was switched out: it is the same
after the first call, after the second and after the third, and the same as
before the sequence. -/
theorem switch_to_round_trip (P : Platform) (s : State) (a b : Option Nat) (q : Nat) :
    ((switch_to P (switch_to P (switch_to P s a) b) a).heap q).arch_tss =
      ((switch_to P s a).heap q).arch_tss ∧
    ((switch_to P (switch_to P s a) b).heap q).arch_tss =
      ((switch_to P s a).heap q).arch_tss ∧
    ((switch_to P (switch_to P (switch_to P s a) b) a).heap (GET_TASK s a)).arch_tss =
      (s.heap (GET_TASK s a)).arch_tss := by
  refine ⟨?_, ?_, ?_⟩
  · rw [(switch_to_heap_fields P _ a q).1, (switch_to_heap_fields P _ b q).1]
  · rw [(switch_to_heap_fields P _ b q).1]
  · rw [(switch_to_heap_fields P _ a _).1, (switch_to_heap_fields P _ b _).1,
      (switch_to_heap_fields P _ a _).1]

/-- C5: ping-pong.  With distinct registered tasks `A` (at the cursor, node
`a`) and `B` (node `b`), both `READY_TO_RUN`: after `switch_to(b)`, `A` is
`READY_TO_RUN`, `B` is `RUNNING` and the cursor resolves to `B`; after a
following `switch_to(a)`, `B` is `READY_TO_RUN`, `A` is `RUNNING` and the
cursor resolves to `A`; the priorities of both are unchanged throughout. -/
theorem switch_to_ping_pong (P : Platform) (s : State) (a b : Option Nat) (A B : Nat)
    (hcur : GET_TASK s s.cur_task = A) (ha : GET_TASK s a = A) (hb : GET_TASK s b = B)
    (hA0 : A ≠ NULL) (hB0 : B ≠ NULL) (hAB : A ≠ B)
    (hstA : (s.heap A).state = P.TASK_READY_TO_RUN)
    (hstB : (s.heap B).state = P.TASK_READY_TO_RUN) :
    (((switch_to P s b).heap A).state = P.TASK_READY_TO_RUN ∧
      ((switch_to P s b).heap B).state = P.TASK_RUNNING ∧
      GET_TASK (switch_to P s b) (switch_to P s b).cur_task = B) ∧
    (((switch_to P (switch_to P s b) a).heap B).state = P.TASK_READY_TO_RUN ∧
      ((switch_to P (switch_to P s b) a).heap A).state = P.TASK_RUNNING ∧
      GET_TASK (switch_to P (switch_to P s b) a) (switch_to P (switch_to P s b) a).cur_task
        = A) ∧
    (((switch_to P s b).heap A).priority = (s.heap A).priority ∧
      ((switch_to P s b).heap B).priority = (s.heap B).priority ∧
      ((switch_to P (switch_to P s b) a).heap A).priority = (s.heap A).priority ∧
      ((switch_to P (switch_to P s b) a).heap B).priority = (s.heap B).priority) := by
  subst hcur hb
  have hA1 : GET_TASK s s.cur_task ≠ GET_TASK s b := hAB
  have hB1 : GET_TASK s b ≠ GET_TASK s s.cur_task := fun e => hAB e.symm
  -- the state after the first call
  have h1A : ((switch_to P s b).heap (GET_TASK s s.cur_task)).state = P.TASK_READY_TO_RUN := by
    rw [switch_to_heap_other P s b _ hA0 hB0 hA1]
    split_ifs
    · rfl
    · exact hstA
  have h1B : ((switch_to P s b).heap (GET_TASK s b)).state = P.TASK_RUNNING := by
    rw [switch_to_heap_target P s b hA0 hB0]
  have h1c : (switch_to P s b).cur_task = b := switch_to_cur_task P s b hA0 hB0
  -- the endpoints of the second call
  have h2cur : GET_TASK (switch_to P s b) (switch_to P s b).cur_task = GET_TASK s b := by
    rw [h1c, GET_TASK_switch_to]
  have h2tgt : GET_TASK (switch_to P s b) a = GET_TASK s s.cur_task := by
    rw [GET_TASK_switch_to, ha]
  have h2A0 : GET_TASK (switch_to P s b) (switch_to P s b).cur_task ≠ NULL := by
    rw [h2cur]; exact hB0
  have h2B0 : GET_TASK (switch_to P s b) a ≠ NULL := by
    rw [h2tgt]; exact hA0
  refine ⟨⟨h1A, h1B, h2cur⟩, ⟨?_, ?_, ?_⟩, ?_, ?_, ?_, ?_⟩
  · rw [switch_to_heap_other P _ a _ h2A0 h2B0 (by rw [h2tgt]; exact hB1)]
    rw [if_pos ⟨h2cur.symm, h1B⟩]
  · have := switch_to_heap_target P (switch_to P s b) a h2A0 h2B0
    rw [h2tgt] at this
    rw [this]
  · rw [switch_to_cur_task P _ a h2A0 h2B0, GET_TASK_switch_to, GET_TASK_switch_to, ha]
  · exact (switch_to_heap_fields P s b _).2.1
  · exact (switch_to_heap_fields P s b _).2.1
  · rw [(switch_to_heap_fields P _ a _).2.1]; exact (switch_to_heap_fields P s b _).2.1
  · rw [(switch_to_heap_fields P _ a _).2.1]; exact (switch_to_heap_fields P s b _).2.1

/-- Witness of C5: `A` at address 4096 with priority 0, `B` at address 8192
with priority 5, both ready, `A` at the cursor. -/
theorem switch_to_ping_pong_witness :
    (((sample_state 1 1).heap 4096).priority = 0 ∧
      ((sample_state 1 1).heap 8192).priority = 5 ∧
      ((sample_state 1 1).heap 4096).state = P0.TASK_READY_TO_RUN ∧
      ((sample_state 1 1).heap 8192).state = P0.TASK_READY_TO_RUN) ∧
    ((switch_to P0 (sample_state 1 1) (some 1)).heap 8192).state = P0.TASK_RUNNING ∧
    ((switch_to P0 (switch_to P0 (sample_state 1 1) (some 1)) (some 0)).heap 4096).state
      = P0.TASK_RUNNING ∧
    ((switch_to P0 (switch_to P0 (sample_state 1 1) (some 1)) (some 0)).heap 8192).priority
      = 5 :=
  have h := switch_to_ping_pong P0 (sample_state 1 1) (some 0) (some 1) 4096 8192
    rfl rfl rfl (by decide) (by decide) (by decide) rfl rfl
  ⟨⟨rfl, rfl, rfl, rfl⟩, h.1.2.1, h.2.1.2.1, h.2.2.2.2.2⟩

/-! ## Properties of `arch_init_scheduler` -/

theorem kmalloc_fst (s : State) (size flags : Nat) :
    (kmalloc s size flags).1 = s.kmalloc_results.headD NULL := by
  unfold kmalloc
  cases s.kmalloc_results <;> rfl

theorem kmalloc_fail (s : State) (size flags : Nat)
    (h : s.kmalloc_results.headD NULL = NULL) :
    (kmalloc s size flags).1 = NULL ∧
    (kmalloc s size flags).2.live = s.live ∧
    (kmalloc s size flags).2.trace = s.trace ++ [Event.kmalloc size flags NULL] ∧
    (kmalloc s size flags).2.heap = s.heap ∧
    (kmalloc s size flags).2.tasks = s.tasks ∧
    (kmalloc s size flags).2.cur_task = s.cur_task ∧
    (kmalloc s size flags).2.arch_tss_cur_task = s.arch_tss_cur_task ∧
    (kmalloc s size flags).2.esp0 = s.esp0 := by
  unfold kmalloc
  cases hk : s.kmalloc_results with
  | nil => simp
  | cons p rest =>
    rw [hk] at h
    simp only [List.headD_cons] at h
    subst h
    simp

/-- C6: on an empty registry, when both allocations succeed (the allocator
returns `p` for the task structure and `k` for the kernel stack, neither
`NULL`), after `arch_init_scheduler` the registry holds exactly the task `p`,
which is `TASK_RUNNING` with priority `DEFAULT_PRIORITY`, pid `KERNEL_PID`,
return code 0 and wait queue 0; the cursor resolves to it and
`arch_tss_cur_task` refers to its context. -/
theorem arch_init_scheduler_success (P : Platform) (s : State) (start_routine p k : Nat) (rest : List Nat)
    (hempty : s.tasks = [])
    (hk : s.kmalloc_results = p :: k :: rest) (hp : p ≠ NULL) (hk0 : k ≠ NULL) :
    (arch_init_scheduler P s start_routine).tasks = [p] ∧
    ((arch_init_scheduler P s start_routine).heap p).state = P.TASK_RUNNING ∧
    ((arch_init_scheduler P s start_routine).heap p).priority = P.DEFAULT_PRIORITY ∧
    ((arch_init_scheduler P s start_routine).heap p).pid = P.KERNEL_PID ∧
    ((arch_init_scheduler P s start_routine).heap p).return_code = 0 ∧
    ((arch_init_scheduler P s start_routine).heap p).wait_queue = 0 ∧
    GET_TASK (arch_init_scheduler P s start_routine)
      (arch_init_scheduler P s start_routine).cur_task = p ∧
    (arch_init_scheduler P s start_routine).arch_tss_cur_task = p := by
  simp [arch_init_scheduler, kmalloc, hk, hp, hk0, hempty, State.upd, State.set_task,
    cli, sti, c_llist_add, initial_task, load_esp, load_eflags, tasks_head, GET_TASK]

/-- Witness of C6: the allocator returns 4096 and then 32768. -/
theorem arch_init_scheduler_success_witness :
    (boot_state [4096, 32768]).tasks = [] ∧
    (arch_init_scheduler P0 (boot_state [4096, 32768]) 1048576).tasks = [4096] ∧
    ((arch_init_scheduler P0 (boot_state [4096, 32768]) 1048576).heap 4096).state
      = P0.TASK_RUNNING :=
  have h := arch_init_scheduler_success P0 (boot_state [4096, 32768]) 1048576 4096 32768 []
    rfl rfl (by decide) (by decide)
  ⟨rfl, h.1, h.2.1⟩

/-- C7: on an empty registry, when the allocation of the task structure
fails, after `arch_init_scheduler` the registry is still empty; the cursor,
`arch_tss_cur_task` and `task_tss.esp0` are unchanged; the only outside call
made is the one failed `kmalloc` (no kernel stack is requested, `initial_task`
is not called); and no task structure is changed, so no task becomes
`RUNNING`. -/
theorem arch_init_scheduler_tcb_alloc_fails (P : Platform) (s : State) (start_routine : Nat)
    (hempty : s.tasks = [])
    (hfail : (kmalloc s P.sizeof_task_t P.GFP_NORMAL_Z).1 = NULL) :
    (arch_init_scheduler P s start_routine).tasks = [] ∧
    (arch_init_scheduler P s start_routine).cur_task = s.cur_task ∧
    (arch_init_scheduler P s start_routine).arch_tss_cur_task = s.arch_tss_cur_task ∧
    (arch_init_scheduler P s start_routine).esp0 = s.esp0 ∧
    (arch_init_scheduler P s start_routine).trace =
      s.trace ++ [Event.kmalloc P.sizeof_task_t P.GFP_NORMAL_Z NULL] ∧
    (arch_init_scheduler P s start_routine).heap = s.heap ∧
    (arch_init_scheduler P s start_routine).live = s.live := by
  have h0 : s.kmalloc_results.headD NULL = NULL := by rw [← kmalloc_fst]; exact hfail
  have hf := kmalloc_fail s P.sizeof_task_t P.GFP_NORMAL_Z h0
  have e : arch_init_scheduler P s start_routine = (kmalloc s P.sizeof_task_t P.GFP_NORMAL_Z).2 := by
    simp only [arch_init_scheduler, hfail, if_true]
  rw [e]
  exact ⟨by rw [hf.2.2.2.2.1, hempty], hf.2.2.2.2.2.1, hf.2.2.2.2.2.2.1, hf.2.2.2.2.2.2.2,
    hf.2.2.1, hf.2.2.2.1, hf.2.1⟩

/-- Witness of C7: the allocator has nothing to give. -/
theorem arch_init_scheduler_tcb_alloc_fails_witness :
    (boot_state []).tasks = [] ∧
    (kmalloc (boot_state []) P0.sizeof_task_t P0.GFP_NORMAL_Z).1 = NULL ∧
    (arch_init_scheduler P0 (boot_state []) 1048576).tasks = [] ∧
    (arch_init_scheduler P0 (boot_state []) 1048576).trace =
      [Event.kmalloc 96 1 0] :=
  have h := arch_init_scheduler_tcb_alloc_fails P0 (boot_state []) 1048576 rfl rfl
  ⟨rfl, rfl, h.1, h.2.2.2.2.1⟩

/-- C8: on an empty registry, when the task structure is allocated (at `p`)
but the allocation of the kernel stack fails, after `arch_init_scheduler` the
registry is still empty; the cursor, `arch_tss_cur_task` and `task_tss.esp0`
are unchanged; the live allocations are those before the call; and the
outside calls made are the two `kmalloc` calls followed by one `kfree(p)`
(so `initial_task` is not called). -/
theorem arch_init_scheduler_stack_alloc_fails (P : Platform) (s : State) (start_routine p : Nat) (rest : List Nat)
    (hempty : s.tasks = [])
    (hk : s.kmalloc_results = p :: rest) (hp : p ≠ NULL)
    (hfail : rest.headD NULL = NULL) :
    (arch_init_scheduler P s start_routine).tasks = [] ∧
    (arch_init_scheduler P s start_routine).cur_task = s.cur_task ∧
    (arch_init_scheduler P s start_routine).arch_tss_cur_task = s.arch_tss_cur_task ∧
    (arch_init_scheduler P s start_routine).esp0 = s.esp0 ∧
    (arch_init_scheduler P s start_routine).live = s.live ∧
    (arch_init_scheduler P s start_routine).trace =
      s.trace ++ [Event.kmalloc P.sizeof_task_t P.GFP_NORMAL_Z p,
        Event.kmalloc P.PROCESS_STACK_SIZE (P.GFP_NORMAL_Z ||| P.PAGE_USER) NULL,
        Event.kfree p] := by
  cases rest with
  | nil =>
    simp [arch_init_scheduler, kmalloc, hk, hp, hempty, State.set_task, kfree]
  | cons k rest =>
    simp only [List.headD_cons] at hfail
    subst hfail
    simp [arch_init_scheduler, kmalloc, hk, hp, hempty, State.set_task, kfree]

/-- Witness of C8: the allocator returns 4096 and then fails. -/
theorem arch_init_scheduler_stack_alloc_fails_witness :
    (boot_state [4096, 0]).tasks = [] ∧
    (arch_init_scheduler P0 (boot_state [4096, 0]) 1048576).tasks = [] ∧
    (arch_init_scheduler P0 (boot_state [4096, 0]) 1048576).live = [] ∧
    (arch_init_scheduler P0 (boot_state [4096, 0]) 1048576).trace =
      [Event.kmalloc 96 1 4096, Event.kmalloc 8192 (1 ||| 4) 0, Event.kfree 4096] :=
  have h := arch_init_scheduler_stack_alloc_fails P0 (boot_state [4096, 0]) 1048576 4096 [0]
    rfl rfl (by decide) rfl
  ⟨rfl, h.1, h.2.2.2.2.1, h.2.2.2.2.2⟩

/-! ## Memory and frames -/

theorem sub32_sub32 (a b c : Nat) : sub32 (sub32 a b) c = sub32 a (b + c) := by
  unfold sub32 W32; omega

theorem sub32_add (a n i : Nat) (h : i < n) : (sub32 a n + i) % W32 = sub32 a (n - i) := by
  unfold sub32 W32; omega

theorem add32_sub32 (a b c : Nat) (h : c ≤ b) : add32 (sub32 a b) c = sub32 a (b - c) := by
  unfold add32 sub32 W32; omega

theorem memcpy_of_ne (m : Mem) (dst v : Nat) (n a : Nat)
    (h : ∀ i, i < n → a ≠ (dst + i) % W32) : memcpy m dst v n a = m a := by
  induction n with
  | zero => rfl
  | succ n ih =>
    simp only [memcpy]
    rw [if_neg (h n (Nat.lt_succ_self n))]
    exact ih fun i hi => h i (Nat.lt_succ_of_lt hi)

theorem memcpy_at (m : Mem) (dst v : Nat) (n i : Nat) (hn : n ≤ W32) (hi : i < n) :
    memcpy m dst v n ((dst + i) % W32) = v / 256 ^ i % 256 := by
  induction n with
  | zero => omega
  | succ n ih =>
    simp only [memcpy]
    by_cases e : i = n
    · subst e; simp
    · have hne : (dst + i) % W32 ≠ (dst + n) % W32 := by
        unfold W32 at hn ⊢; omega
      rw [if_neg hne]
      exact ih (by omega) (by omega)

theorem load_congr (m1 m2 : Mem) (src n : Nat)
    (h : ∀ i, i < n → m1 ((src + i) % W32) = m2 ((src + i) % W32)) :
    load m1 src n = load m2 src n := by
  induction n with
  | zero => rfl
  | succ n ih =>
    simp only [load]
    rw [ih fun i hi => h i (Nat.lt_succ_of_lt hi), h n (Nat.lt_succ_self n)]

theorem load_memcpy_le (m : Mem) (dst v n k : Nat) (hn : n ≤ W32) (hk : k ≤ n) :
    load (memcpy m dst v n) dst k = v % 256 ^ k := by
  induction k with
  | zero => simp [load, Nat.mod_one]
  | succ k ih =>
    simp only [load]
    rw [ih (by omega), memcpy_at m dst v n k hn (by omega), Nat.mod_pow_succ]

theorem load_memcpy (m : Mem) (dst v n : Nat) (hn : n ≤ W32) :
    load (memcpy m dst v n) dst n = v % 256 ^ n :=
  load_memcpy_le m dst v n n hn (Nat.le_refl n)

/-- Footprint of a sequence of pushes: a byte that is not among the
`frame_size fs` bytes below `sp` keeps its value. -/
theorem push_all_outside (fs : List (Nat × Nat)) (sp : Nat) (m : Mem) (a : Nat)
    (h : ∀ j, 1 ≤ j → j ≤ frame_size fs → a ≠ sub32 sp j) :
    (push_all fs sp m).2 a = m a := by
  induction fs generalizing sp m with
  | nil => rfl
  | cons f fs ih =>
    simp only [push_all, push_into_stack]
    simp only [frame_size] at h
    rw [ih]
    · apply memcpy_of_ne
      intro i hi
      rw [sub32_add sp f.2 i hi]
      exact h (f.2 - i) (by omega) (by omega)
    · intro j h1 h2
      rw [sub32_sub32]
      exact h (f.2 + j) (by omega) (by omega)

theorem push_all_fst (fs : List (Nat × Nat)) (sp : Nat) (m : Mem) (h : fs ≠ []) :
    (push_all fs sp m).1 = sub32 sp (frame_size fs) := by
  induction fs generalizing sp m with
  | nil => exact absurd rfl h
  | cons f fs ih =>
    simp only [push_all, push_into_stack, frame_size]
    cases fs with
    | nil => simp [push_all, frame_size]
    | cons g gs => rw [ih _ _ (by simp), sub32_sub32]

theorem frame_holds_push_all (fs : List (Nat × Nat)) (sp : Nat) (m : Mem)
    (h : frame_size fs ≤ W32) : frame_holds (push_all fs sp m).2 fs sp := by
  induction fs generalizing sp m with
  | nil => trivial
  | cons f fs ih =>
    simp only [frame_size] at h
    simp only [push_all, push_into_stack, frame_holds]
    refine ⟨?_, ih _ _ (by omega)⟩
    rw [load_congr _ (memcpy m (sub32 sp f.2) f.1 f.2)]
    · exact load_memcpy _ _ _ _ (by omega)
    · intro i hi
      apply push_all_outside
      intro j h1 h2
      have : f.2 + frame_size fs ≤ 4294967296 := h
      unfold sub32 W32; omega

/-! ## Properties of `setup_task` -/

theorem setup_task_mem (P : Platform) (s : State) (task E : Nat) (h : task ≠ NULL) :
    (setup_task P s task E).mem =
      (push_all (frame_fields P (setup_context P s (s.heap task) E).regs
        (setup_context P s (s.heap task) E).cr3) (s.heap task).kstack s.mem).2 := by
  simp only [setup_task, h, if_false]
  rfl

theorem setup_task_heap (P : Platform) (s : State) (task E : Nat) (h : task ≠ NULL) :
    (setup_task P s task E).heap task =
      { s.heap task with
        arch_tss := setup_context P s (s.heap task) E,
        kstack := (push_all (frame_fields P (setup_context P s (s.heap task) E).regs
          (setup_context P s (s.heap task) E).cr3) (s.heap task).kstack s.mem).1 } := by
  simp only [setup_task, h, if_false, State.set_task, if_true]
  rfl

theorem frame_size_fields (P : Platform) (r : pt_regs) (cr3 : Nat) :
    frame_size (frame_fields P r cr3) = 14 * 4 + P.sizeof_ds := by
  simp only [frame_fields, frame_size]; omega

theorem setup_task_frame_holds (P : Platform) (s : State) (task E : Nat) (htask : task ≠ NULL)
    (hF : 14 * 4 + P.sizeof_ds ≤ W32) :
    frame_holds (setup_task P s task E).mem
      (frame_fields P (setup_context P s (s.heap task) E).regs
        (setup_context P s (s.heap task) E).cr3) (s.heap task).kstack := by
  rw [setup_task_mem P s task E htask]
  apply frame_holds_push_all
  rw [frame_size_fields]; exact hF

theorem Platform.wf_seg (P : Platform) (h : P.wf) :
    seg P P.KERNEL_DS = P.KERNEL_DS ∧ seg P P.KERNEL_CS = P.KERNEL_CS ∧
    P.KERNEL_DS < W32 ∧ P.KERNEL_CS < W32 := by
  obtain ⟨h1, h2, h3, h4, _⟩ := h
  have hle : 256 ^ P.sizeof_ds ≤ W32 := by
    have : 256 ^ P.sizeof_ds ≤ 256 ^ 4 := Nat.pow_le_pow_right (by decide) h2
    simpa [W32] using this
  exact ⟨Nat.mod_eq_of_lt h3, Nat.mod_eq_of_lt h4, lt_of_lt_of_le h3 hle, lt_of_lt_of_le h4 hle⟩

/-- C9: golden layout.  For a non-null task with kernel-stack pointer `K`
and entry point `E`, after `setup_task` the memory just below `K` holds, from
the highest address downwards and without gaps, `ss = KERNEL_DS`, `esp` (the
new recorded stack pointer), `eflags = EFLAGS_IF`, `cs = KERNEL_CS`,
`eip = E`, then `eax`, `ecx`, `edx`, `ebx`, `esp` (the new recorded stack
pointer), `ebp`, `esi`, `edi` as stored in the task, then `ds = KERNEL_DS` and
`cr3`, the physical address of the kernel page directory; each is 4 bytes
wide except `ds`.  Reading the frame back from the recorded stack pointer in
the mirror order gives the values of the task's saved context. -/
theorem setup_task_golden_layout (P : Platform) (s : State) (task E : Nat)
    (htask : task ≠ NULL) (hP : P.wf) (hwf : (s.heap task).wf)
    (hE : E < W32) (hdir : s.dir_phy_addr < W32) :
    load (setup_task P s task E).mem (sub32 (s.heap task).kstack 4) 4 = P.KERNEL_DS ∧
    load (setup_task P s task E).mem (sub32 (s.heap task).kstack 8) 4 =
      ((setup_task P s task E).heap task).arch_tss.regs.esp ∧
    load (setup_task P s task E).mem (sub32 (s.heap task).kstack 12) 4 = P.EFLAGS_IF ∧
    load (setup_task P s task E).mem (sub32 (s.heap task).kstack 16) 4 = P.KERNEL_CS ∧
    load (setup_task P s task E).mem (sub32 (s.heap task).kstack 20) 4 = E ∧
    load (setup_task P s task E).mem (sub32 (s.heap task).kstack 24) 4 =
      (s.heap task).arch_tss.regs.eax ∧
    load (setup_task P s task E).mem (sub32 (s.heap task).kstack 28) 4 =
      (s.heap task).arch_tss.regs.ecx ∧
    load (setup_task P s task E).mem (sub32 (s.heap task).kstack 32) 4 =
      (s.heap task).arch_tss.regs.edx ∧
    load (setup_task P s task E).mem (sub32 (s.heap task).kstack 36) 4 =
      (s.heap task).arch_tss.regs.ebx ∧
    load (setup_task P s task E).mem (sub32 (s.heap task).kstack 40) 4 =
      ((setup_task P s task E).heap task).arch_tss.regs.esp ∧
    load (setup_task P s task E).mem (sub32 (s.heap task).kstack 44) 4 =
      (s.heap task).arch_tss.regs.ebp ∧
    load (setup_task P s task E).mem (sub32 (s.heap task).kstack 48) 4 =
      (s.heap task).arch_tss.regs.esi ∧
    load (setup_task P s task E).mem (sub32 (s.heap task).kstack 52) 4 =
      (s.heap task).arch_tss.regs.edi ∧
    load (setup_task P s task E).mem (sub32 (s.heap task).kstack (52 + P.sizeof_ds)) P.sizeof_ds =
      P.KERNEL_DS ∧
    load (setup_task P s task E).mem (sub32 (s.heap task).kstack (56 + P.sizeof_ds)) 4 =
      s.dir_phy_addr ∧
    read_frame P (setup_task P s task E).mem
        ((setup_task P s task E).heap task).arch_tss.regs.esp =
      context_frame ((setup_task P s task E).heap task).arch_tss := by
  obtain ⟨hds, hcs, hds32, hcs32⟩ := Platform.wf_seg P hP
  obtain ⟨hs1, hs4, _, _, hif⟩ := hP
  obtain ⟨heax, hecx, hedx, hebx, hebp, hesi, hedi⟩ := hwf
  have hF : 14 * 4 + P.sizeof_ds ≤ W32 := by unfold W32; omega
  have h := setup_task_frame_holds P s task E htask hF
  simp only [frame_fields, frame_holds, sub32_sub32, Nat.reduceAdd] at h
  have hctx : ((setup_task P s task E).heap task).arch_tss = setup_context P s (s.heap task) E := by
    rw [setup_task_heap P s task E htask]
  have hesp : (setup_context P s (s.heap task) E).regs.esp =
      sub32 (s.heap task).kstack (56 + P.sizeof_ds) := by
    simp only [setup_context]
    unfold sub32 u32 W32; omega
  have hesp32 : sub32 (s.heap task).kstack (56 + P.sizeof_ds) < W32 := by
    unfold sub32 W32; omega
  have h256 : (256 : Nat) ^ 4 = W32 := by unfold W32; norm_num
  rw [hctx]
  simp only [setup_context, setup_regs, hds, hcs, u32, h256] at h hesp ⊢
  simp only [Nat.mod_eq_of_lt hif, Nat.mod_eq_of_lt hE, Nat.mod_eq_of_lt hdir, hesp,
    Nat.mod_eq_of_lt hesp32, Nat.mod_eq_of_lt hds32, Nat.mod_eq_of_lt hcs32,
    Nat.mod_eq_of_lt heax, Nat.mod_eq_of_lt hecx, Nat.mod_eq_of_lt hedx, Nat.mod_eq_of_lt hebx,
    Nat.mod_eq_of_lt hebp, Nat.mod_eq_of_lt hesi, Nat.mod_eq_of_lt hedi,
    Nat.mod_eq_of_lt ‹P.KERNEL_DS < 256 ^ P.sizeof_ds›] at h ⊢
  have e56 : 52 + P.sizeof_ds + 4 = 56 + P.sizeof_ds := by omega
  rw [e56] at h
  obtain ⟨l1, l2, l3, l4, l5, l6, l7, l8, l9, l10, l11, l12, l13, l14, l15, _⟩ := h
  refine ⟨l1, l2, l3, l4, l5, l6, l7, l8, l9, l10, l11, l12, l13, l14, l15, ?_⟩
  have a1 : add32 (sub32 (s.heap task).kstack (56 + P.sizeof_ds)) 4 =
      sub32 (s.heap task).kstack (52 + P.sizeof_ds) := by
    rw [add32_sub32 _ _ _ (by omega)]; congr 1; omega
  have a2 : add32 (sub32 (s.heap task).kstack (52 + P.sizeof_ds)) P.sizeof_ds =
      sub32 (s.heap task).kstack 52 := by
    rw [add32_sub32 _ _ _ (by omega)]; congr 1; omega
  have a3 : ∀ b, 4 ≤ b → add32 (sub32 (s.heap task).kstack b) 4 =
      sub32 (s.heap task).kstack (b - 4) := fun b hb => add32_sub32 _ _ _ hb
  simp only [read_frame, context_frame, a1, a2]
  rw [a3 52 (by omega), a3 48 (by omega), a3 44 (by omega), a3 40 (by omega), a3 36 (by omega),
    a3 32 (by omega), a3 28 (by omega), a3 24 (by omega), a3 20 (by omega), a3 16 (by omega),
    a3 12 (by omega), a3 8 (by omega)]
  simp only [Nat.reduceSub, l1, l2, l3, l4, l5, l6, l7, l8, l9, l10, l11, l12, l13, l14, l15]

/-- Witness of C9: task 4096 of the sample state and entry point 1048576. -/
theorem setup_task_golden_layout_witness :
    (4096 ≠ NULL ∧ P0.wf ∧ ((sample_state 1 1).heap 4096).wf ∧ 1048576 < W32 ∧
      (sample_state 1 1).dir_phy_addr < W32) ∧
    load (setup_task P0 (sample_state 1 1) 4096 1048576).mem (sub32 65536 20) 4 = 1048576 ∧
    read_frame P0 (setup_task P0 (sample_state 1 1) 4096 1048576).mem
        ((setup_task P0 (sample_state 1 1) 4096 1048576).heap 4096).arch_tss.regs.esp =
      context_frame ((setup_task P0 (sample_state 1 1) 4096 1048576).heap 4096).arch_tss :=
  have h := setup_task_golden_layout P0 (sample_state 1 1) 4096 1048576
    (by decide) (by decide) (by decide) (by decide) (by decide)
  ⟨⟨by decide, by decide, by decide, by decide, by decide⟩, h.2.2.2.2.1, h.2.2.2.2.2.2.2.2.2.2.2.2.2.2.2⟩

/-- C10: for a non-null task with kernel-stack pointer `K`, after
`setup_task` the recorded stack pointer is `K - (14 * 4 + sizeof(ds))` modulo
`2 ^ 32`; it is the value of `task->kstack` after the call, that is the
address of the last field written, where `cr3` is stored; and it differs from
`K`. -/
theorem setup_task_recorded_esp (P : Platform) (s : State) (task E : Nat) (htask : task ≠ NULL)
    (hF : 14 * 4 + P.sizeof_ds < W32) :
    ((setup_task P s task E).heap task).arch_tss.regs.esp =
      sub32 (s.heap task).kstack (14 * 4 + P.sizeof_ds) ∧
    ((setup_task P s task E).heap task).kstack =
      ((setup_task P s task E).heap task).arch_tss.regs.esp ∧
    load (setup_task P s task E).mem ((setup_task P s task E).heap task).arch_tss.regs.esp 4 =
      ((setup_task P s task E).heap task).arch_tss.cr3 ∧
    ((setup_task P s task E).heap task).arch_tss.regs.esp ≠ (s.heap task).kstack := by
  have hesp : ((setup_task P s task E).heap task).arch_tss.regs.esp =
      sub32 (s.heap task).kstack (14 * 4 + P.sizeof_ds) := by
    rw [setup_task_heap P s task E htask]
    simp only [setup_context]
    unfold sub32 u32 W32; omega
  refine ⟨hesp, ?_, ?_, ?_⟩
  · rw [hesp, setup_task_heap P s task E htask]
    simp only []
    rw [push_all_fst _ _ _ (by simp [frame_fields]), frame_size_fields]
  · have h := setup_task_frame_holds P s task E htask (Nat.le_of_lt hF)
    simp only [frame_fields, frame_holds, sub32_sub32, Nat.reduceAdd] at h
    have e56 : 52 + P.sizeof_ds + 4 = 14 * 4 + P.sizeof_ds := by omega
    have h256 : (256 : Nat) ^ 4 = W32 := by unfold W32; norm_num
    rw [hesp, ← e56, h.2.2.2.2.2.2.2.2.2.2.2.2.2.2.1, setup_task_heap P s task E htask, h256]
    simp only [setup_context, setup_regs, u32, Nat.mod_mod]
  · rw [hesp]
    unfold sub32 W32
    unfold W32 at hF
    omega

/-- Witness of C10: task 4096 of the sample state, whose kernel stack
pointer is 65536; the frame is 58 bytes. -/
theorem setup_task_recorded_esp_witness :
    (4096 ≠ NULL ∧ 14 * 4 + P0.sizeof_ds < W32) ∧
    ((setup_task P0 (sample_state 1 1) 4096 1048576).heap 4096).arch_tss.regs.esp =
      sub32 65536 58 :=
  ⟨⟨by decide, by decide⟩,
    (setup_task_recorded_esp P0 (sample_state 1 1) 4096 1048576 (by decide) (by decide)).1⟩

/-! ## Further properties of `switch_to` -/

theorem switch_to_globals (P : Platform) (s : State) (tsk : Option Nat) :
    (switch_to P s tsk).esp0 = s.esp0 ∧ (switch_to P s tsk).mem = s.mem ∧
    (switch_to P s tsk).esp = s.esp ∧ (switch_to P s tsk).live = s.live := by
  simp only [switch_to, task_switch_to, State.upd, State.set_task]
  split_ifs <;> exact ⟨rfl, rfl, rfl, rfl⟩

/-- C12: `setup_task` called with a `NULL` task returns the state it was
given, whatever the entry point: no task structure, no byte of memory, no
registry entry, neither the cursor nor any global is changed, and no outside
call is made. -/
theorem setup_task_null (P : Platform) (s : State) (start_routine : Nat) :
    setup_task P s NULL start_routine = s ∧
    (setup_task P s NULL start_routine).heap = s.heap ∧
    (setup_task P s NULL start_routine).mem = s.mem ∧
    (setup_task P s NULL start_routine).tasks = s.tasks ∧
    (setup_task P s NULL start_routine).cur_task = s.cur_task ∧
    (setup_task P s NULL start_routine).trace = s.trace := by
  have e : setup_task P s NULL start_routine = s := by simp only [setup_task, if_true]
  rw [e]
  exact ⟨rfl, rfl, rfl, rfl, rfl, rfl⟩

/-- C13, as stated, fails when the target is the current task itself: on the
sample state the task at the cursor is `READY_TO_RUN` (state 1, not
`RUNNING`), both endpoints resolve to it, and after `switch_to` its state is
`RUNNING` (state 0). -/
theorem switch_to_self_counterexample :
    GET_TASK (sample_state 1 1) (sample_state 1 1).cur_task = 4096 ∧
    GET_TASK (sample_state 1 1) (some 0) = 4096 ∧
    ((sample_state 1 1).heap 4096).state = 1 ∧
    ((sample_state 1 1).heap 4096).state ≠ P0.TASK_RUNNING ∧
    ((switch_to P0 (sample_state 1 1) (some 0)).heap 4096).state = 0 ∧
    ((switch_to P0 (sample_state 1 1) (some 0)).heap 4096).state ≠
      ((sample_state 1 1).heap 4096).state := by
  have h := switch_to_heap_target P0 (sample_state 1 1) (some 0) (by decide) (by decide)
  have e : GET_TASK (sample_state 1 1) (some 0) = 4096 := rfl
  rw [e] at h
  refine ⟨rfl, rfl, rfl, by decide, ?_, ?_⟩
  · rw [h]; rfl
  · rw [h]; decide

/-- C13, amended: when the current task and the target resolve to two
different tasks and the current task is not `RUNNING`, the state of the
outgoing current task after `switch_to` is its state before. -/
theorem switch_to_non_running_current (P : Platform) (s : State) (tsk : Option Nat)
    (hA : GET_TASK s s.cur_task ≠ NULL) (hB : GET_TASK s tsk ≠ NULL)
    (hAB : GET_TASK s s.cur_task ≠ GET_TASK s tsk)
    (hst : (s.heap (GET_TASK s s.cur_task)).state ≠ P.TASK_RUNNING) :
    ((switch_to P s tsk).heap (GET_TASK s s.cur_task)).state =
      (s.heap (GET_TASK s s.cur_task)).state := by
  rw [switch_to_heap_other P s tsk _ hA hB hAB]
  simp [hst]

/-- Witness of the amended C13: the task at the cursor is in state 3 and the
target is the other task. -/
theorem switch_to_non_running_current_witness :
    (GET_TASK (sample_state 3 1) (sample_state 3 1).cur_task ≠ GET_TASK (sample_state 3 1) (some 1) ∧
      ((sample_state 3 1).heap (GET_TASK (sample_state 3 1) (sample_state 3 1).cur_task)).state
        ≠ P0.TASK_RUNNING) ∧
    ((switch_to P0 (sample_state 3 1) (some 1)).heap 4096).state = 3 :=
  ⟨⟨by decide, by decide⟩,
    switch_to_non_running_current P0 (sample_state 3 1) (some 1) (by decide) (by decide)
      (by decide) (by decide)⟩

theorem switch_to_trace (P : Platform) (s : State) (tsk : Option Nat)
    (hA : GET_TASK s s.cur_task ≠ NULL) (hB : GET_TASK s tsk ≠ NULL) :
    (switch_to P s tsk).trace =
      s.trace ++ [Event.task_switch_to (GET_TASK s tsk)
        { tasks := s.tasks, cur_task := tsk, arch_tss_cur_task := GET_TASK s s.cur_task,
          esp0 := s.esp0, interrupts := s.interrupts,
          task := { s.heap (GET_TASK s tsk) with state := P.TASK_RUNNING } }] ∧
    (switch_to P s tsk).arch_tss_cur_task = GET_TASK s s.cur_task := by
  simp only [switch_to, hA, hB, task_switch_to, State.snapshot, State.upd, State.set_task,
    or_self, if_false, if_true]
  by_cases hrun : (s.heap (GET_TASK s s.cur_task)).state = P.TASK_RUNNING
  · simp only [hrun, if_true]
    by_cases h : GET_TASK s tsk = GET_TASK s s.cur_task
    · simp [h]
    · simp [h]
  · simp [hrun]

/-- C15: when both endpoints resolve, after `switch_to` the pointer
`arch_tss_cur_task` refers to the context of the task that was current before
the call and the cursor is the target node, which resolves to the target.
`task_switch_to` is called exactly once, with the target's context; what the
call finds at the moment it is made already has `arch_tss_cur_task` on the
outgoing task, the cursor on the target node and the target `RUNNING`, and
is what `switch_to` leaves behind. -/
theorem switch_to_restore_call (P : Platform) (s : State) (tsk : Option Nat)
    (hA : GET_TASK s s.cur_task ≠ NULL) (hB : GET_TASK s tsk ≠ NULL) :
    (switch_to P s tsk).arch_tss_cur_task = GET_TASK s s.cur_task ∧
    (switch_to P s tsk).cur_task = tsk ∧
    GET_TASK (switch_to P s tsk) (switch_to P s tsk).cur_task = GET_TASK s tsk ∧
    (switch_to P s tsk).trace =
      s.trace ++ [Event.task_switch_to (GET_TASK s tsk)
        { tasks := s.tasks, cur_task := tsk, arch_tss_cur_task := GET_TASK s s.cur_task,
          esp0 := s.esp0, interrupts := s.interrupts,
          task := { s.heap (GET_TASK s tsk) with state := P.TASK_RUNNING } }] ∧
    (switch_to P s tsk).trace =
      s.trace ++ [Event.task_switch_to (GET_TASK s tsk)
        ((switch_to P s tsk).snapshot (GET_TASK s tsk))] := by
  obtain ⟨ht, ha⟩ := switch_to_trace P s tsk hA hB
  have hc := switch_to_cur_task P s tsk hA hB
  refine ⟨ha, hc, ?_, ht, ?_⟩
  · rw [hc, GET_TASK_switch_to]
  · rw [ht]
    simp only [State.snapshot, switch_to_tasks, hc, ha, (switch_to_globals P s tsk).1,
      switch_to_heap_target P s tsk hA hB]
    have hi : (switch_to P s tsk).interrupts = s.interrupts := by
      simp only [switch_to, task_switch_to, State.upd, State.set_task]
      split_ifs <;> rfl
    rw [hi]

/-- Witness of C15 on the sample state with `A` running. -/
theorem switch_to_restore_call_witness :
    (GET_TASK (sample_state 0 1) (sample_state 0 1).cur_task ≠ NULL ∧
      GET_TASK (sample_state 0 1) (some 1) ≠ NULL) ∧
    (switch_to P0 (sample_state 0 1) (some 1)).arch_tss_cur_task = 4096 ∧
    (switch_to P0 (sample_state 0 1) (some 1)).trace =
      [Event.task_switch_to 8192
        { tasks := [4096, 8192], cur_task := some 1, arch_tss_cur_task := 4096, esp0 := 0,
          interrupts := true, task := sample_task 0 5 512 }] :=
  have h := switch_to_restore_call P0 (sample_state 0 1) (some 1) (by decide) (by decide)
  ⟨⟨by decide, by decide⟩, h.1, h.2.2.2.1⟩

/-- C18: frame of `switch_to`.  When both endpoints resolve, the registry is
the same list as before; every task other than the outgoing one and the
target is unchanged in every member; for every task, and so for these two,
`pid`, `priority`, `return_code`, `wait_queue`, `kstack` and the whole saved
context are unchanged, so that only `state` may change; and `task_tss.esp0`
is unchanged. -/
theorem switch_to_frame (P : Platform) (s : State) (tsk : Option Nat)
    (hA : GET_TASK s s.cur_task ≠ NULL) (hB : GET_TASK s tsk ≠ NULL) :
    (switch_to P s tsk).tasks = s.tasks ∧
    (∀ q, q ≠ GET_TASK s s.cur_task → q ≠ GET_TASK s tsk →
      (switch_to P s tsk).heap q = s.heap q) ∧
    (∀ q, ((switch_to P s tsk).heap q).pid = (s.heap q).pid ∧
      ((switch_to P s tsk).heap q).priority = (s.heap q).priority ∧
      ((switch_to P s tsk).heap q).return_code = (s.heap q).return_code ∧
      ((switch_to P s tsk).heap q).wait_queue = (s.heap q).wait_queue ∧
      ((switch_to P s tsk).heap q).kstack = (s.heap q).kstack ∧
      ((switch_to P s tsk).heap q).arch_tss = (s.heap q).arch_tss) ∧
    (switch_to P s tsk).esp0 = s.esp0 := by
  refine ⟨switch_to_tasks P s tsk, ?_, ?_, (switch_to_globals P s tsk).1⟩
  · intro q hqA hqB
    rw [switch_to_heap_other P s tsk q hA hB hqB]
    simp [hqA]
  · intro q
    obtain ⟨h1, h2, h3, h4, h5, h6⟩ := switch_to_heap_fields P s tsk q
    exact ⟨h3, h2, h5, h6, h4, h1⟩

/-- Witness of C18 on the sample state with `A` running. -/
theorem switch_to_frame_witness :
    (GET_TASK (sample_state 0 1) (sample_state 0 1).cur_task ≠ NULL ∧
      GET_TASK (sample_state 0 1) (some 1) ≠ NULL) ∧
    (switch_to P0 (sample_state 0 1) (some 1)).tasks = [4096, 8192] ∧
    (switch_to P0 (sample_state 0 1) (some 1)).esp0 = 0 :=
  have h := switch_to_frame P0 (sample_state 0 1) (some 1) (by decide) (by decide)
  ⟨⟨by decide, by decide⟩, h.1, h.2.2.2⟩

/-- C19: when both endpoints resolve, calling `switch_to` with the same node
a second time leaves the state of every task and the cursor as they were
after the first call; in particular, switching to the task that is already
current and `RUNNING` leaves it `RUNNING` with the cursor on it. -/
theorem switch_to_idempotent (P : Platform) (s : State) (tsk : Option Nat)
    (hA : GET_TASK s s.cur_task ≠ NULL) (hB : GET_TASK s tsk ≠ NULL) :
    (∀ q, ((switch_to P (switch_to P s tsk) tsk).heap q).state =
      ((switch_to P s tsk).heap q).state) ∧
    (switch_to P (switch_to P s tsk) tsk).cur_task = (switch_to P s tsk).cur_task ∧
    (GET_TASK s s.cur_task = GET_TASK s tsk →
      (s.heap (GET_TASK s tsk)).state = P.TASK_RUNNING →
      ((switch_to P s tsk).heap (GET_TASK s tsk)).state = P.TASK_RUNNING ∧
      GET_TASK (switch_to P s tsk) (switch_to P s tsk).cur_task = GET_TASK s tsk) := by
  have h1c : (switch_to P s tsk).cur_task = tsk := switch_to_cur_task P s tsk hA hB
  have h1B : ((switch_to P s tsk).heap (GET_TASK s tsk)).state = P.TASK_RUNNING := by
    rw [switch_to_heap_target P s tsk hA hB]
  have h2cur : GET_TASK (switch_to P s tsk) (switch_to P s tsk).cur_task = GET_TASK s tsk := by
    rw [h1c, GET_TASK_switch_to]
  have h2tgt : GET_TASK (switch_to P s tsk) tsk = GET_TASK s tsk := GET_TASK_switch_to P s tsk tsk
  have h2A0 : GET_TASK (switch_to P s tsk) (switch_to P s tsk).cur_task ≠ NULL := by
    rw [h2cur]; exact hB
  have h2B0 : GET_TASK (switch_to P s tsk) tsk ≠ NULL := by
    rw [h2tgt]; exact hB
  refine ⟨?_, ?_, fun _ _ => ⟨h1B, h2cur⟩⟩
  · intro q
    by_cases hq : q = GET_TASK s tsk
    · subst hq
      have h := switch_to_heap_target P (switch_to P s tsk) tsk h2A0 h2B0
      rw [h2tgt] at h
      rw [h, h1B]
    · rw [switch_to_heap_other P (switch_to P s tsk) tsk q h2A0 h2B0 (by rw [h2tgt]; exact hq)]
      rw [h2cur]
      simp [hq]
  · rw [switch_to_cur_task P (switch_to P s tsk) tsk h2A0 h2B0, h1c]

/-- Witness of C19 on the sample state with `A` running. -/
theorem switch_to_idempotent_witness :
    (GET_TASK (sample_state 0 1) (sample_state 0 1).cur_task ≠ NULL ∧
      GET_TASK (sample_state 0 1) (some 1) ≠ NULL) ∧
    (switch_to P0 (switch_to P0 (sample_state 0 1) (some 1)) (some 1)).cur_task =
      (switch_to P0 (sample_state 0 1) (some 1)).cur_task :=
  ⟨⟨by decide, by decide⟩,
    (switch_to_idempotent P0 (sample_state 0 1) (some 1) (by decide) (by decide)).2.1⟩

/-! ## Further properties of `arch_init_scheduler` -/

theorem u32_lor (a b : Nat) (ha : a < W32) (hb : b < W32) : u32 (a ||| b) = a ||| b := by
  have h : a ||| b < 2 ^ 32 := Nat.or_lt_two_pow (by simpa [W32] using ha) (by simpa [W32] using hb)
  exact Nat.mod_eq_of_lt (by simpa [W32] using h)

theorem arch_init_scheduler_heap (P : Platform) (s : State) (E p k : Nat) (rest : List Nat)
    (hk : s.kmalloc_results = p :: k :: rest) (hp : p ≠ NULL) (hk0 : k ≠ NULL) :
    (arch_init_scheduler P s E).heap p =
      { arch_tss :=
          { regs :=
              { zero_task.arch_tss.regs with
                eip := u32 E,
                ds := seg P P.KERNEL_DS,
                fs := seg P P.KERNEL_DS,
                gs := seg P P.KERNEL_DS,
                ss := seg P P.KERNEL_DS,
                es := seg P P.KERNEL_DS,
                cs := seg P P.KERNEL_CS,
                eflags := u32 (s.eflags ||| P.EFLAGS_IF),
                esp := s.esp },
            cr3 := u32 s.dir_phy_addr },
        state := P.TASK_RUNNING,
        priority := P.DEFAULT_PRIORITY,
        pid := P.KERNEL_PID,
        kstack := s.esp,
        return_code := 0,
        wait_queue := 0 } := by
  simp [arch_init_scheduler, kmalloc, hk, hp, hk0, State.upd, State.set_task,
    cli, sti, c_llist_add, initial_task, load_esp, load_eflags]

theorem arch_init_scheduler_globals (P : Platform) (s : State) (E p k : Nat) (rest : List Nat)
    (hk : s.kmalloc_results = p :: k :: rest) (hp : p ≠ NULL) (hk0 : k ≠ NULL) :
    (arch_init_scheduler P s E).interrupts = true ∧
    (arch_init_scheduler P s E).esp0 = add32 (u32 k) P.PROCESS_STACK_SIZE ∧
    (arch_init_scheduler P s E).tasks = s.tasks ++ [p] ∧
    (arch_init_scheduler P s E).cur_task = some 0 ∧
    (arch_init_scheduler P s E).arch_tss_cur_task = p := by
  cases ht : s.tasks <;>
    simp [arch_init_scheduler, kmalloc, hk, hp, hk0, ht, State.upd, State.set_task,
      cli, sti, c_llist_add, initial_task, load_esp, load_eflags, tasks_head]

theorem arch_init_scheduler_calls (P : Platform) (s : State) (E p k : Nat) (rest : List Nat)
    (hk : s.kmalloc_results = p :: k :: rest) (hp : p ≠ NULL) (hk0 : k ≠ NULL) :
    (arch_init_scheduler P s E).trace =
      s.trace ++ [Event.kmalloc P.sizeof_task_t P.GFP_NORMAL_Z p,
        Event.kmalloc P.PROCESS_STACK_SIZE (P.GFP_NORMAL_Z ||| P.PAGE_USER) k,
        Event.load_eflags s.eflags,
        Event.cli,
        Event.c_llist_add p
          { tasks := s.tasks, cur_task := s.cur_task,
            arch_tss_cur_task := s.arch_tss_cur_task,
            esp0 := add32 (u32 k) P.PROCESS_STACK_SIZE, interrupts := false,
            task :=
              { (arch_init_scheduler P s E).heap p with
                kstack := 0,
                arch_tss :=
                  { ((arch_init_scheduler P s E).heap p).arch_tss with
                    regs :=
                      { ((arch_init_scheduler P s E).heap p).arch_tss.regs with esp := 0 } } } },
        Event.sti,
        Event.load_esp s.esp,
        Event.initial_task p ((arch_init_scheduler P s E).snapshot p)] := by
  cases ht : s.tasks <;>
    simp [arch_init_scheduler, kmalloc, hk, hp, hk0, ht, State.upd, State.set_task,
      cli, sti, c_llist_add, initial_task, load_esp, load_eflags, tasks_head, State.snapshot,
      zero_task]

/-- C14: after a successful `arch_init_scheduler` with entry point `E` and
captured flags `f`, the context of the new task has `eip = E`, `ds`, `es`,
`fs`, `gs`, `ss` equal to `KERNEL_DS`, `cs = KERNEL_CS`, `cr3` equal to the
physical address of the kernel page directory and `eflags = f | EFLAGS_IF`:
each bit of `eflags` is set when it is set in `f` or in `EFLAGS_IF`.  By
contrast `setup_task` stores `eflags = EFLAGS_IF`. -/
theorem arch_init_scheduler_context (P : Platform) (s : State) (E p k : Nat) (rest : List Nat)
    (hk : s.kmalloc_results = p :: k :: rest) (hp : p ≠ NULL) (hk0 : k ≠ NULL)
    (hP : P.wf) (hE : E < W32) (hf : s.eflags < W32) (hdir : s.dir_phy_addr < W32) :
    ((arch_init_scheduler P s E).heap p).arch_tss.regs.eip = E ∧
    ((arch_init_scheduler P s E).heap p).arch_tss.regs.ds = P.KERNEL_DS ∧
    ((arch_init_scheduler P s E).heap p).arch_tss.regs.es = P.KERNEL_DS ∧
    ((arch_init_scheduler P s E).heap p).arch_tss.regs.fs = P.KERNEL_DS ∧
    ((arch_init_scheduler P s E).heap p).arch_tss.regs.gs = P.KERNEL_DS ∧
    ((arch_init_scheduler P s E).heap p).arch_tss.regs.ss = P.KERNEL_DS ∧
    ((arch_init_scheduler P s E).heap p).arch_tss.regs.cs = P.KERNEL_CS ∧
    ((arch_init_scheduler P s E).heap p).arch_tss.cr3 = s.dir_phy_addr ∧
    ((arch_init_scheduler P s E).heap p).arch_tss.regs.eflags = s.eflags ||| P.EFLAGS_IF ∧
    (∀ i, (((arch_init_scheduler P s E).heap p).arch_tss.regs.eflags).testBit i =
      ((s.eflags).testBit i || (P.EFLAGS_IF).testBit i)) ∧
    (∀ (s' : State) (task E' : Nat), task ≠ NULL →
      ((setup_task P s' task E').heap task).arch_tss.regs.eflags = P.EFLAGS_IF) := by
  obtain ⟨hds, hcs, _, _⟩ := Platform.wf_seg P hP
  have hif : P.EFLAGS_IF < W32 := hP.2.2.2.2
  have hfl : ((arch_init_scheduler P s E).heap p).arch_tss.regs.eflags =
      s.eflags ||| P.EFLAGS_IF := by
    rw [arch_init_scheduler_heap P s E p k rest hk hp hk0]
    exact u32_lor _ _ hf hif
  rw [hfl]
  rw [arch_init_scheduler_heap P s E p k rest hk hp hk0]
  refine ⟨Nat.mod_eq_of_lt hE, hds, hds, hds, hds, hds, hcs, Nat.mod_eq_of_lt hdir, rfl,
    fun i => Nat.testBit_lor _ _ i, ?_⟩
  intro s' task E' htask
  rw [setup_task_heap P s' task E' htask]
  exact Nat.mod_eq_of_lt hif

/-- Witness of C14: the allocator returns 4096 and 32768, the flags register
holds 2. -/
theorem arch_init_scheduler_context_witness :
    (P0.wf ∧ 1048576 < W32 ∧ (boot_state [4096, 32768]).eflags < W32 ∧
      (boot_state [4096, 32768]).dir_phy_addr < W32) ∧
    ((arch_init_scheduler P0 (boot_state [4096, 32768]) 1048576).heap 4096).arch_tss.regs.eflags
      = 2 ||| 512 ∧
    ((arch_init_scheduler P0 (boot_state [4096, 32768]) 1048576).heap 4096).arch_tss.regs.eip
      = 1048576 :=
  have h := arch_init_scheduler_context P0 (boot_state [4096, 32768]) 1048576 4096 32768 []
    rfl (by decide) (by decide) (by decide) (by decide) (by decide) (by decide)
  ⟨⟨by decide, by decide, by decide, by decide⟩, h.2.2.2.2.2.2.2.2.1, h.1⟩

/-- C16: after a successful `arch_init_scheduler` the new task's `kstack`
equals its saved stack pointer, and both equal the stack pointer of the
processor, read after the task was registered: the steps recorded are, in
order, the two allocations, the read of the flags, `cli`, the registration
of the task (on the registry as it was, interrupts disabled), `sti`, the read
of the stack pointer with the value that is stored, and then one call of
`initial_task` with this task.  What `initial_task` finds is what the function
leaves behind: the task is registered, interrupts are enabled and `kstack`
and the saved stack pointer are already stored. -/
theorem arch_init_scheduler_entry (P : Platform) (s : State) (E p k : Nat) (rest : List Nat)
    (hk : s.kmalloc_results = p :: k :: rest) (hp : p ≠ NULL) (hk0 : k ≠ NULL) :
    ((arch_init_scheduler P s E).heap p).kstack =
      ((arch_init_scheduler P s E).heap p).arch_tss.regs.esp ∧
    ((arch_init_scheduler P s E).heap p).arch_tss.regs.esp = s.esp ∧
    (∃ seen : Snapshot,
      (arch_init_scheduler P s E).trace =
        s.trace ++ [Event.kmalloc P.sizeof_task_t P.GFP_NORMAL_Z p,
          Event.kmalloc P.PROCESS_STACK_SIZE (P.GFP_NORMAL_Z ||| P.PAGE_USER) k,
          Event.load_eflags s.eflags,
          Event.cli,
          Event.c_llist_add p seen,
          Event.sti,
          Event.load_esp ((arch_init_scheduler P s E).heap p).arch_tss.regs.esp,
          Event.initial_task p ((arch_init_scheduler P s E).snapshot p)] ∧
      seen.tasks = s.tasks ∧ seen.interrupts = false) ∧
    ((arch_init_scheduler P s E).snapshot p).tasks = s.tasks ++ [p] ∧
    ((arch_init_scheduler P s E).snapshot p).interrupts = true ∧
    ((arch_init_scheduler P s E).snapshot p).task.kstack = s.esp ∧
    ((arch_init_scheduler P s E).snapshot p).task.arch_tss.regs.esp = s.esp := by
  obtain ⟨hi, _, htk, _, _⟩ := arch_init_scheduler_globals P s E p k rest hk hp hk0
  have hc := arch_init_scheduler_calls P s E p k rest hk hp hk0
  have hh := arch_init_scheduler_heap P s E p k rest hk hp hk0
  have h1 : ((arch_init_scheduler P s E).heap p).kstack = s.esp := by rw [hh]
  have h2 : ((arch_init_scheduler P s E).heap p).arch_tss.regs.esp = s.esp := by rw [hh]
  refine ⟨by rw [h1, h2], h2, ?_, htk, hi, h1, h2⟩
  rw [h2]
  exact ⟨_, hc, rfl, rfl⟩

/-- Witness of C16: the allocator returns 4096 and 32768, the processor's
stack pointer is 36864. -/
theorem arch_init_scheduler_entry_witness :
    (boot_state [4096, 32768]).kmalloc_results = [4096, 32768] ∧
    ((arch_init_scheduler P0 (boot_state [4096, 32768]) 1048576).heap 4096).kstack =
      ((arch_init_scheduler P0 (boot_state [4096, 32768]) 1048576).heap 4096).arch_tss.regs.esp ∧
    ((arch_init_scheduler P0 (boot_state [4096, 32768]) 1048576).heap 4096).arch_tss.regs.esp
      = 36864 :=
  have h := arch_init_scheduler_entry P0 (boot_state [4096, 32768]) 1048576 4096 32768 []
    rfl (by decide) (by decide)
  ⟨rfl, h.1, h.2.1⟩

/-- C17: after a successful `arch_init_scheduler` whose kernel-stack
allocation returned `k`, `task_tss.esp0` is `k + PROCESS_STACK_SIZE` modulo
`2 ^ 32`.  The registration call `c_llist_add` already finds this value, on
the registry as it was before the call, and so does the call of
`initial_task`: the value is set before the task is registered and before
control is transferred. -/
theorem arch_init_scheduler_esp0 (P : Platform) (s : State) (E p k : Nat) (rest : List Nat)
    (hk : s.kmalloc_results = p :: k :: rest) (hp : p ≠ NULL) (hk0 : k ≠ NULL) :
    (arch_init_scheduler P s E).esp0 = (k + P.PROCESS_STACK_SIZE) % W32 ∧
    ∃ seenA seenB : Snapshot,
      (arch_init_scheduler P s E).trace =
        s.trace ++ [Event.kmalloc P.sizeof_task_t P.GFP_NORMAL_Z p,
          Event.kmalloc P.PROCESS_STACK_SIZE (P.GFP_NORMAL_Z ||| P.PAGE_USER) k,
          Event.load_eflags s.eflags,
          Event.cli,
          Event.c_llist_add p seenA,
          Event.sti,
          Event.load_esp s.esp,
          Event.initial_task p seenB] ∧
      seenA.esp0 = (k + P.PROCESS_STACK_SIZE) % W32 ∧ seenA.tasks = s.tasks ∧
      seenB.esp0 = (k + P.PROCESS_STACK_SIZE) % W32 ∧ seenB.tasks = s.tasks ++ [p] := by
  have e : add32 (u32 k) P.PROCESS_STACK_SIZE = (k + P.PROCESS_STACK_SIZE) % W32 := by
    unfold add32 u32 W32; omega
  obtain ⟨_, h0, htk, _, _⟩ := arch_init_scheduler_globals P s E p k rest hk hp hk0
  have hc := arch_init_scheduler_calls P s E p k rest hk hp hk0
  refine ⟨by rw [h0, e], _, _, hc, e, rfl, ?_, htk⟩
  show (arch_init_scheduler P s E).esp0 = _
  rw [h0, e]

/-- Witness of C17: the allocator returns 4096 and 32768, a kernel stack is
8192 bytes. -/
theorem arch_init_scheduler_esp0_witness :
    (boot_state [4096, 32768]).kmalloc_results = [4096, 32768] ∧
    (arch_init_scheduler P0 (boot_state [4096, 32768]) 1048576).esp0 = (32768 + 8192) % W32 :=
  ⟨rfl, (arch_init_scheduler_esp0 P0 (boot_state [4096, 32768]) 1048576 4096 32768 []
    rfl (by decide) (by decide)).1⟩

/-! ## The scheduler invariant -/

theorem setup_task_globals (P : Platform) (s : State) (task E : Nat) :
    (setup_task P s task E).tasks = s.tasks ∧ (setup_task P s task E).cur_task = s.cur_task ∧
    (setup_task P s task E).esp0 = s.esp0 ∧ (setup_task P s task E).trace = s.trace ∧
    (setup_task P s task E).arch_tss_cur_task = s.arch_tss_cur_task := by
  simp only [setup_task, State.set_task]
  split_ifs <;> exact ⟨rfl, rfl, rfl, rfl, rfl⟩

theorem setup_task_heap_other (P : Platform) (s : State) (task E q : Nat) (hq : q ≠ task) :
    (setup_task P s task E).heap q = s.heap q := by
  simp only [setup_task, State.set_task]
  split_ifs
  · rfl
  · simp [hq]

theorem setup_task_heap_fields (P : Platform) (s : State) (task E q : Nat) :
    ((setup_task P s task E).heap q).state = (s.heap q).state ∧
    ((setup_task P s task E).heap q).pid = (s.heap q).pid ∧
    ((setup_task P s task E).heap q).priority = (s.heap q).priority ∧
    ((setup_task P s task E).heap q).return_code = (s.heap q).return_code ∧
    ((setup_task P s task E).heap q).wait_queue = (s.heap q).wait_queue ∧
    ((setup_task P s task E).heap q).arch_tss.regs.eax = (s.heap q).arch_tss.regs.eax ∧
    ((setup_task P s task E).heap q).arch_tss.regs.ecx = (s.heap q).arch_tss.regs.ecx ∧
    ((setup_task P s task E).heap q).arch_tss.regs.edx = (s.heap q).arch_tss.regs.edx ∧
    ((setup_task P s task E).heap q).arch_tss.regs.ebx = (s.heap q).arch_tss.regs.ebx ∧
    ((setup_task P s task E).heap q).arch_tss.regs.ebp = (s.heap q).arch_tss.regs.ebp ∧
    ((setup_task P s task E).heap q).arch_tss.regs.esi = (s.heap q).arch_tss.regs.esi ∧
    ((setup_task P s task E).heap q).arch_tss.regs.edi = (s.heap q).arch_tss.regs.edi := by
  by_cases htask : task = NULL
  · have e : setup_task P s task E = s := by simp only [setup_task, htask, if_true]
    rw [e]
    exact ⟨rfl, rfl, rfl, rfl, rfl, rfl, rfl, rfl, rfl, rfl, rfl, rfl⟩
  · by_cases hq : q = task
    · subst hq
      rw [setup_task_heap P s q E htask]
      exact ⟨rfl, rfl, rfl, rfl, rfl, rfl, rfl, rfl, rfl, rfl, rfl, rfl⟩
    · rw [setup_task_heap_other P s task E q hq]
      exact ⟨rfl, rfl, rfl, rfl, rfl, rfl, rfl, rfl, rfl, rfl, rfl, rfl⟩

theorem GET_TASK_mem (s : State) (a : Option Nat) (h : GET_TASK s a ≠ NULL) :
    GET_TASK s a ∈ s.tasks := by
  cases a with
  | none => exact absurd rfl h
  | some i =>
    simp only [GET_TASK] at h ⊢
    by_cases hi : i < s.tasks.length
    · rw [List.getD_eq_getElem _ _ hi]
      exact List.getElem_mem hi
    · rw [List.getD_eq_default _ _ (by omega)] at h
      exact absurd rfl h

theorem sched_inv_of_cursor (P : Platform) (s : State)
    (h : ∀ p, p ∈ s.tasks → p ≠ NULL → (s.heap p).state = P.TASK_RUNNING →
      GET_TASK s s.cur_task = p) : sched_inv P s :=
  ⟨fun p q hp hq hp0 hq0 hpr hqr => (h p hp hp0 hpr).symm.trans (h q hq hq0 hqr), h⟩

theorem sched_inv_boot (P : Platform) (s : State) (E p k : Nat) (rest : List Nat)
    (hempty : s.tasks = []) (hk : s.kmalloc_results = p :: k :: rest)
    (hp : p ≠ NULL) (hk0 : k ≠ NULL) : sched_inv P (arch_init_scheduler P s E) := by
  apply sched_inv_of_cursor
  have ht : (arch_init_scheduler P s E).tasks = [p] := by
    rw [(arch_init_scheduler_globals P s E p k rest hk hp hk0).2.2.1, hempty]; rfl
  have hc : GET_TASK (arch_init_scheduler P s E) (arch_init_scheduler P s E).cur_task = p := by
    simp [arch_init_scheduler, kmalloc, hk, hp, hk0, hempty, State.upd, State.set_task,
      cli, sti, c_llist_add, initial_task, load_esp, load_eflags, tasks_head, GET_TASK]
  intro q hq _ _
  rw [ht] at hq
  rw [hc]
  exact (List.mem_singleton.mp hq).symm

theorem sched_inv_switch_to (P : Platform) (hne : P.TASK_RUNNING ≠ P.TASK_READY_TO_RUN)
    (s : State) (tsk : Option Nat) (h : sched_inv P s) : sched_inv P (switch_to P s tsk) := by
  by_cases hres : GET_TASK s s.cur_task = NULL ∨ GET_TASK s tsk = NULL
  · rw [switch_to_noop P s tsk hres]; exact h
  · have hA : GET_TASK s s.cur_task ≠ NULL := fun e => hres (Or.inl e)
    have hB : GET_TASK s tsk ≠ NULL := fun e => hres (Or.inr e)
    apply sched_inv_of_cursor
    intro q hq hq0 hrun
    rw [switch_to_tasks] at hq
    rw [switch_to_cur_task P s tsk hA hB, GET_TASK_switch_to]
    by_contra hqB
    have hqB' : q ≠ GET_TASK s tsk := fun e => hqB e.symm
    rw [switch_to_heap_other P s tsk q hA hB hqB'] at hrun
    split_ifs at hrun with hc
    · exact hne hrun.symm
    · exact hc ⟨(h.2 q hq hq0 hrun).symm, hrun⟩

theorem sched_inv_setup_task (P : Platform) (s : State) (task E : Nat) (h : sched_inv P s) :
    sched_inv P (setup_task P s task E) := by
  obtain ⟨ht, hc, _, _, _⟩ := setup_task_globals P s task E
  apply sched_inv_of_cursor
  intro q hq hq0 hrun
  rw [ht] at hq
  rw [(setup_task_heap_fields P s task E q).1] at hrun
  simp only [GET_TASK, ht, hc]
  exact h.2 q hq hq0 hrun

/-- C11: the scheduler invariant (at most one task of the registry is
`RUNNING`, and a `RUNNING` task of the registry is the one the cursor resolves
to) holds after a successful `arch_init_scheduler` on an empty registry, is
preserved by every call of `switch_to` and by every call of `setup_task`, and
so holds in every state reached from bootstrap by these operations. -/
theorem scheduler_invariant (P : Platform) (hne : P.TASK_RUNNING ≠ P.TASK_READY_TO_RUN) :
    (∀ (s : State) (E p k : Nat) (rest : List Nat), s.tasks = [] →
      s.kmalloc_results = p :: k :: rest → p ≠ NULL → k ≠ NULL →
      sched_inv P (arch_init_scheduler P s E)) ∧
    (∀ (s : State) (tsk : Option Nat), sched_inv P s → sched_inv P (switch_to P s tsk)) ∧
    (∀ (s : State) (task E : Nat), sched_inv P s → sched_inv P (setup_task P s task E)) ∧
    (∀ s : State, Reachable P s → sched_inv P s) := by
  refine ⟨fun s E p k rest h1 h2 h3 h4 => sched_inv_boot P s E p k rest h1 h2 h3 h4,
    fun s tsk h => sched_inv_switch_to P hne s tsk h,
    fun s task E h => sched_inv_setup_task P s task E h, ?_⟩
  intro s hs
  induction hs with
  | boot s E p k rest h1 h2 h3 h4 => exact sched_inv_boot P s E p k rest h1 h2 h3 h4
  | switch s tsk _ ih => exact sched_inv_switch_to P hne s tsk ih
  | setup s task E _ ih => exact sched_inv_setup_task P s task E ih

/-- Witness of C11: the state after bootstrap and one `switch_to`. -/
theorem scheduler_invariant_witness :
    P0.TASK_RUNNING ≠ P0.TASK_READY_TO_RUN ∧
    sched_inv P0
      (switch_to P0 (arch_init_scheduler P0 (boot_state [4096, 32768]) 1048576) (some 0)) :=
  ⟨by decide, (scheduler_invariant P0 (by decide)).2.2.2 _
    (Reachable.switch _ _
      (Reachable.boot _ 1048576 4096 32768 [] rfl rfl (by decide) (by decide)))⟩

/-! ## Footprint of `setup_task` -/

theorem setup_task_mem_outside (P : Platform) (s : State) (task E a : Nat) (htask : task ≠ NULL)
    (h : ∀ j, 1 ≤ j → j ≤ 14 * 4 + P.sizeof_ds → a ≠ sub32 (s.heap task).kstack j) :
    (setup_task P s task E).mem a = s.mem a := by
  rw [setup_task_mem P s task E htask]
  apply push_all_outside
  rw [frame_size_fields]
  exact h

theorem setup_task_kstack (P : Platform) (s : State) (task E : Nat) (htask : task ≠ NULL) :
    ((setup_task P s task E).heap task).kstack =
      sub32 (s.heap task).kstack (14 * 4 + P.sizeof_ds) := by
  rw [setup_task_heap P s task E htask]
  simp only []
  rw [push_all_fst _ _ _ (by simp [frame_fields]), frame_size_fields]

/-- C20: footprint of `setup_task`.  For a non-null task with kernel-stack
pointer `K` and frame size `F = 14 * 4 + sizeof(ds)`: a byte that is not one
of the `F` bytes below `K` (addresses modulo `2 ^ 32`) keeps its value, and
when `F ≤ K < 2 ^ 32` these are the bytes below `K - F` and at or above `K`;
`task->kstack` is lowered by `F`; `state`, `pid`, `priority`, `return_code`,
`wait_queue` and the values of `eax`, `ecx`, `edx`, `ebx`, `ebp`, `esi`, `edi`
are unchanged; the registry, the cursor and `task_tss.esp0` are unchanged.  A
second `setup_task` on the same task changes only the `F` bytes below
`K - F`, leaves the bytes of the first frame as they are, and lowers
`task->kstack` to `K - 2 * F`. -/
theorem setup_task_footprint (P : Platform) (s : State) (task E : Nat) (htask : task ≠ NULL)
    (hF : 2 * (14 * 4 + P.sizeof_ds) ≤ W32) :
    (∀ a, (∀ j, 1 ≤ j → j ≤ 14 * 4 + P.sizeof_ds → a ≠ sub32 (s.heap task).kstack j) →
      (setup_task P s task E).mem a = s.mem a) ∧
    (14 * 4 + P.sizeof_ds ≤ (s.heap task).kstack → (s.heap task).kstack < W32 →
      (∀ a, a < (s.heap task).kstack - (14 * 4 + P.sizeof_ds) ∨ (s.heap task).kstack ≤ a →
        (setup_task P s task E).mem a = s.mem a) ∧
      ((setup_task P s task E).heap task).kstack =
        (s.heap task).kstack - (14 * 4 + P.sizeof_ds)) ∧
    ((setup_task P s task E).heap task).kstack =
      sub32 (s.heap task).kstack (14 * 4 + P.sizeof_ds) ∧
    (((setup_task P s task E).heap task).state = (s.heap task).state ∧
      ((setup_task P s task E).heap task).pid = (s.heap task).pid ∧
      ((setup_task P s task E).heap task).priority = (s.heap task).priority ∧
      ((setup_task P s task E).heap task).return_code = (s.heap task).return_code ∧
      ((setup_task P s task E).heap task).wait_queue = (s.heap task).wait_queue ∧
      ((setup_task P s task E).heap task).arch_tss.regs.eax = (s.heap task).arch_tss.regs.eax ∧
      ((setup_task P s task E).heap task).arch_tss.regs.ecx = (s.heap task).arch_tss.regs.ecx ∧
      ((setup_task P s task E).heap task).arch_tss.regs.edx = (s.heap task).arch_tss.regs.edx ∧
      ((setup_task P s task E).heap task).arch_tss.regs.ebx = (s.heap task).arch_tss.regs.ebx ∧
      ((setup_task P s task E).heap task).arch_tss.regs.ebp = (s.heap task).arch_tss.regs.ebp ∧
      ((setup_task P s task E).heap task).arch_tss.regs.esi = (s.heap task).arch_tss.regs.esi ∧
      ((setup_task P s task E).heap task).arch_tss.regs.edi = (s.heap task).arch_tss.regs.edi) ∧
    ((setup_task P s task E).tasks = s.tasks ∧ (setup_task P s task E).cur_task = s.cur_task ∧
      (setup_task P s task E).esp0 = s.esp0) ∧
    (∀ E2 a, (∀ j, 1 ≤ j → j ≤ 14 * 4 + P.sizeof_ds →
        a ≠ sub32 (s.heap task).kstack (14 * 4 + P.sizeof_ds + j)) →
      (setup_task P (setup_task P s task E) task E2).mem a = (setup_task P s task E).mem a) ∧
    (∀ E2 j, 1 ≤ j → j ≤ 14 * 4 + P.sizeof_ds →
      (setup_task P (setup_task P s task E) task E2).mem (sub32 (s.heap task).kstack j) =
        (setup_task P s task E).mem (sub32 (s.heap task).kstack j)) ∧
    (∀ E2, ((setup_task P (setup_task P s task E) task E2).heap task).kstack =
      sub32 (s.heap task).kstack (2 * (14 * 4 + P.sizeof_ds))) := by
  have hk := setup_task_kstack P s task E htask
  have hsecond : ∀ E2 a, (∀ j, 1 ≤ j → j ≤ 14 * 4 + P.sizeof_ds →
        a ≠ sub32 (s.heap task).kstack (14 * 4 + P.sizeof_ds + j)) →
      (setup_task P (setup_task P s task E) task E2).mem a = (setup_task P s task E).mem a := by
    intro E2 a h
    apply setup_task_mem_outside P _ task E2 a htask
    intro j h1 h2
    rw [hk, sub32_sub32]
    exact h j h1 h2
  obtain ⟨g1, g2, g3, _, _⟩ := setup_task_globals P s task E
  refine ⟨fun a h => setup_task_mem_outside P s task E a htask h, ?_, hk,
    setup_task_heap_fields P s task E task, ⟨g1, g2, g3⟩, hsecond, ?_, ?_⟩
  · intro h1 h2
    refine ⟨?_, ?_⟩
    · intro a ha
      apply setup_task_mem_outside P s task E a htask
      intro j hj1 hj2
      unfold sub32 W32
      unfold W32 at h2
      omega
    · rw [hk]
      unfold sub32 W32
      unfold W32 at h2
      omega
  · intro E2 j h1 h2
    apply hsecond
    intro i hi1 hi2
    unfold sub32 W32
    unfold W32 at hF
    omega
  · intro E2
    rw [setup_task_kstack P _ task E2 htask, hk, sub32_sub32]
    congr 1
    omega

/-- Witness of C20: task 4096 of the sample state, whose kernel stack
pointer is 65536; the frame is 58 bytes. -/
theorem setup_task_footprint_witness :
    (4096 ≠ NULL ∧ 2 * (14 * 4 + P0.sizeof_ds) ≤ W32) ∧
    ((setup_task P0 (sample_state 1 1) 4096 1048576).heap 4096).kstack = sub32 65536 58 ∧
    (setup_task P0 (sample_state 1 1) 4096 1048576).tasks = [4096, 8192] :=
  have h := setup_task_footprint P0 (sample_state 1 1) 4096 1048576 (by decide) (by decide)
  ⟨⟨by decide, by decide⟩, h.2.2.1, h.2.2.2.2.1.1⟩

end Tempos
